import Mathlib

/-
Verification of the BotCal calorie-logging bot (src/bot.py).

Shallow embedding conventions:
- Python floats are modelled as exact rationals: the claims under study are
  about exact arithmetic relationships (energy = grams * kcal100 / 100,
  totals as sums), which is how the spec states them.
- The sqlite table `entries` is modelled as a `List Entry` in insertion
  order; `AUTOINCREMENT` ids grow with insertion, so `ORDER BY id ASC`
  coincides with insertion order and the `id` column is left implicit.
- Calendar days are modelled by a `Date` structure (Gregorian calendar);
  `day TEXT` iso strings biject with valid dates via `isoformat`, and
  `timedelta(days=1)` subtraction is the `predD` calendar predecessor.
- `re.search(r"\d+(?:[.,]\d+)?", t)` is embedded as the leftmost-greedy
  scanner `findNum` (skip to the first digit, take the maximal digit run,
  then optionally one of `.`/`,` followed by a maximal nonempty digit run).
- `context.user_data` is the `UD` structure (fields `name`, `grams`);
  conversation states of the three `ConversationHandler`s are the per-user
  fields `convG`, `convK`, `convD` of `SysState`.
-/

namespace BotCal

/-! ## Python string helpers -/

/-- The characters removed by Python `str.strip()` (the whitespace set,
including the no-break space, which Python treats as whitespace). -/
def isPySpace (c : Char) : Bool :=
  c = ' ' || c = '\t' || c = '\n' || c = '\r' || c = '\x0b' || c = '\x0c' || c = '\xa0'

/-- Python `text.strip()` on a character list: drop whitespace at both ends. -/
def pyStrip (cs : List Char) : List Char :=
  (((cs.dropWhile isPySpace).reverse.dropWhile isPySpace)).reverse

/-- Python `text.strip()` on a `String`. -/
def pyStripStr (s : String) : String :=
  String.mk (pyStrip s.data)

/-! ## Buttons (src/bot.py lines 29-43) -/

def BTN_ADD_GRAMS : String := "Add (grams)"
def BTN_ADD_KCAL : String := "Add (kcal)"
def BTN_TODAY_LIST : String := "Today list"
def BTN_TOTAL : String := "Total"
def BTN_RESET : String := "Reset"
def BTN_CANCEL : String := "Cancel"
def BTN_YESTERDAY : String := "Yesterday"
def BTN_WEEK : String := "Last 7 days"
def BTN_PICK_DATE : String := "Choose date"

/-- The `BUTTONS` set (a Python `set` of the nine labels). -/
def BUTTONS : List String :=
  [BTN_ADD_GRAMS, BTN_ADD_KCAL, BTN_TODAY_LIST, BTN_TOTAL, BTN_RESET, BTN_CANCEL,
   BTN_YESTERDAY, BTN_WEEK, BTN_PICK_DATE]

/-- `is_button_text(text)`: `text.strip() in BUTTONS`. -/
def is_button_text (s : String) : Bool :=
  BUTTONS.contains (pyStripStr s)

/-! ## extract_number (src/bot.py lines 175-183) -/

/-- Split off the maximal leading run of decimal digits. -/
def digitRun : List Char → List Char × List Char
  | [] => ([], [])
  | c :: cs =>
    if c.isDigit then
      let p := digitRun cs
      (c :: p.1, p.2)
    else ([], c :: cs)

/-- The optional fractional part `(?:[.,]\d+)?` of the regex: a separator
followed by at least one digit yields the maximal digit run after it. -/
def fracOf : List Char → List Char
  | [] => []
  | sep :: rest =>
    if sep = '.' ∨ sep = ',' then
      match rest with
      | [] => []
      | d :: _ => if d.isDigit then (digitRun rest).1 else []
    else []

/-- Leftmost match of `\d+(?:[.,]\d+)?`: skip to the first digit, then the
integer digit run and the (possibly empty) fraction digit run. -/
def findNum : List Char → Option (List Char × List Char)
  | [] => none
  | c :: cs =>
    if c.isDigit then
      some ((digitRun (c :: cs)).1, fracOf (digitRun (c :: cs)).2)
    else findNum cs

/-- Decimal value of a digit string. -/
def digitsToNat (ds : List Char) : ℕ :=
  ds.foldl (fun a c => 10 * a + (c.toNat - 48)) 0

/-- Value of `float(m.group(0).replace(",", "."))` for a match with integer
part `ds` and fraction part `fs`. -/
def ratOfParts (ds fs : List Char) : ℚ :=
  (digitsToNat ds : ℚ) + (digitsToNat fs : ℚ) / (10 : ℚ) ^ fs.length

/-- The no-break space replacement `text.replace(" ", " ")`. -/
def mapNbsp (cs : List Char) : List Char :=
  cs.map (fun c => if c = '\xa0' then ' ' else c)

/-- `extract_number(text)`: replace no-break spaces, strip, search for the
first decimal number, accept `.` or `,` as separator.  The `ValueError`
raised when no number occurs is modelled as `none`. -/
def extract_number (s : String) : Option ℚ :=
  (findNum (pyStrip (mapNbsp s.data))).map (fun p => ratOfParts p.1 p.2)

/-! ## Calendar dates -/

def isLeap (y : ℕ) : Bool :=
  (y % 4 = 0 && y % 100 ≠ 0) || y % 400 = 0

def daysInMonth (y m : ℕ) : ℕ :=
  if m = 2 then (if isLeap y then 29 else 28)
  else if m = 4 ∨ m = 6 ∨ m = 9 ∨ m = 11 then 30
  else 31

/-- A Gregorian calendar date, the model of a Python `datetime.date`
(and of the `day TEXT` column holding its iso string). -/
structure Date where
  year : ℕ
  month : ℕ
  day : ℕ
deriving DecidableEq, Repr

/-- The calendar predecessor: `d - timedelta(days=1)`. -/
def predD (d : Date) : Date :=
  if 2 ≤ d.day then ⟨d.year, d.month, d.day - 1⟩
  else if 2 ≤ d.month then ⟨d.year, d.month - 1, daysInMonth d.year (d.month - 1)⟩
  else ⟨d.year - 1, 12, 31⟩

def pad2 (n : ℕ) : String :=
  if n < 10 then "0" ++ toString n else toString n

def pad4 (n : ℕ) : String :=
  if n < 10 then "000" ++ toString n
  else if n < 100 then "00" ++ toString n
  else if n < 1000 then "0" ++ toString n
  else toString n

/-- `date.isoformat()`: zero-padded `YYYY-MM-DD`. -/
def isoformat (d : Date) : String :=
  pad4 d.year ++ "-" ++ pad2 d.month ++ "-" ++ pad2 d.day

/-- `date.fromisoformat(txt)` restricted to its strict `YYYY-MM-DD` reading:
ten characters, digits in the right places, and a valid calendar date.
The `ValueError` on malformed input is modelled as `none`. -/
def fromisoformat (s : String) : Option Date :=
  match s.data with
  | [y1, y2, y3, y4, s1, m1, m2, s2, d1, d2] =>
    if y1.isDigit ∧ y2.isDigit ∧ y3.isDigit ∧ y4.isDigit ∧ s1 = '-' ∧
       m1.isDigit ∧ m2.isDigit ∧ s2 = '-' ∧ d1.isDigit ∧ d2.isDigit then
      let y := digitsToNat [y1, y2, y3, y4]
      let m := digitsToNat [m1, m2]
      let d := digitsToNat [d1, d2]
      if 1 ≤ y ∧ 1 ≤ m ∧ m ≤ 12 ∧ 1 ≤ d ∧ d ≤ daysInMonth y m then
        some ⟨y, m, d⟩
      else none
    else none
  | _ => none

/-! ## Entry Store (src/bot.py lines 107-153) -/

/-- One row of the `entries` table (the `id` column is implicit: insertion
order of the list). -/
structure Entry where
  user_id : ℤ
  day : Date
  name : String
  grams : Option ℚ
  kcal100 : Option ℚ
  kcal : ℚ
  mode : String
deriving DecidableEq, Repr

/-- The `WHERE user_id=? AND day=?` condition shared by the queries. -/
def entry_matches (uid : ℤ) (day : Date) (e : Entry) : Bool :=
  decide (e.user_id = uid ∧ e.day = day)

/-- `add_entry_grams`: computes `kcal = grams * kcal100 / 100.0`, inserts one
row with mode `"grams"`, returns the computed kcal. -/
def add_entry_grams (store : List Entry) (user_id : ℤ) (day : Date) (name : String)
    (grams kcal100 : ℚ) : List Entry × ℚ :=
  let kcal := grams * kcal100 / 100
  (store ++ [⟨user_id, day, name, some grams, some kcal100, kcal, "grams"⟩], kcal)

/-- `add_entry_kcal`: inserts one row with `NULL` weight fields and mode
`"kcal"`, returns the kcal. -/
def add_entry_kcal (store : List Entry) (user_id : ℤ) (day : Date) (name : String)
    (kcal : ℚ) : List Entry × ℚ :=
  (store ++ [⟨user_id, day, name, none, none, kcal, "kcal"⟩], kcal)

/-- `get_total`: `SELECT COALESCE(SUM(kcal), 0) ... WHERE user_id=? AND day=?`. -/
def get_total (store : List Entry) (user_id : ℤ) (day : Date) : ℚ :=
  ((store.filter (entry_matches user_id day)).map (fun e => e.kcal)).sum

/-- `get_entries`: the matching rows `ORDER BY id ASC` (insertion order). -/
def get_entries (store : List Entry) (user_id : ℤ) (day : Date) : List Entry :=
  store.filter (entry_matches user_id day)

/-- `clear_day`: `DELETE FROM entries WHERE user_id=? AND day=?`. -/
def clear_day (store : List Entry) (user_id : ℤ) (day : Date) : List Entry :=
  store.filter (fun e => ! entry_matches user_id day e)

/-! ## Formatting -/

/-- Python `"%.1f"` formatting of the model rationals: one decimal place,
ties rounded to even (the common case in these claims never hits a tie). -/
def fmt1 (q : ℚ) : String :=
  let s := q * 10
  let f : ℤ := ⌊s⌋
  let r := s - (f : ℚ)
  let n : ℤ :=
    if r < 1 / 2 then f
    else if 1 / 2 < r then f + 1
    else if f % 2 = 0 then f else f + 1
  if n < 0 then
    "-" ++ toString ((-n).toNat / 10) ++ "." ++ toString ((-n).toNat % 10)
  else
    toString (n.toNat / 10) ++ "." ++ toString (n.toNat % 10)

/-- Python `"%g"` formatting, modelled for the short decimal values stored by
this bot: integers print bare, otherwise up to six fractional digits with
trailing zeros removed.  No theorem below inspects this rendering. -/
def fmtG (q : ℚ) : String :=
  let sgn := if q < 0 then "-" else ""
  let a := |q|
  let ip := (⌊a⌋).toNat
  let fr6 := (⌊(a - (⌊a⌋ : ℚ)) * 1000000⌋).toNat
  if fr6 = 0 then sgn ++ toString ip
  else
    let ds := (Nat.toDigits 10 (1000000 + fr6)).drop 1
    sgn ++ toString ip ++ "." ++ String.mk (ds.reverse.dropWhile (fun c => c = '0')).reverse

/-- `format_day_report(day, rows, total)` (src/bot.py lines 190-201). -/
def format_day_report (day : Date) (rows : List Entry) (total : ℚ) : String :=
  if rows = [] then "No entries for " ++ isoformat day ++ "\nTotal: 0.0"
  else
    let line := fun (p : ℕ × Entry) =>
      if p.2.mode = "grams" then
        toString (p.1 + 1) ++ ") " ++ p.2.name ++ " - " ++ fmtG (p.2.grams.getD 0) ++
          " g, " ++ fmt1 p.2.kcal ++ " kcal (100g: " ++ fmtG (p.2.kcal100.getD 0) ++ ")"
      else
        toString (p.1 + 1) ++ ") " ++ p.2.name ++ " - " ++ fmt1 p.2.kcal ++ " kcal (manual)"
    String.intercalate "\n"
      (("Entries for " ++ isoformat day ++ ":") :: rows.enum.map line ++
        ["Total: " ++ fmt1 total])

/-! ## View handlers (src/bot.py lines 359-396) -/

/-- Reply text of `today_list`. -/
def today_list (store : List Entry) (uid : ℤ) (today : Date) : String :=
  format_day_report today (get_entries store uid today) (get_total store uid today)

/-- Reply text of `total_today`. -/
def total_today (store : List Entry) (uid : ℤ) (today : Date) : String :=
  "Today total (" ++ isoformat today ++ "): " ++ fmt1 (get_total store uid today)

/-- Reply text of `yesterday_total`. -/
def yesterday_total (store : List Entry) (uid : ℤ) (today : Date) : String :=
  "Yesterday total (" ++ isoformat (predD today) ++ "): " ++
    fmt1 (get_total store uid (predD today))

/-- The sum computed by `week_total`: `total = 0.0`, then for `i in range(7)`
add the total of `today - timedelta(days=i)`. -/
def week_total (store : List Entry) (uid : ℤ) (today : Date) : ℚ :=
  (List.range 7).foldl (fun total i => total + get_total store uid (predD^[i] today)) 0

/-- Reply text of `week_total`. -/
def week_total_reply (store : List Entry) (uid : ℤ) (today : Date) : String :=
  "Total for last 7 days: " ++ fmt1 (week_total store uid today)

/-- Reply text of `reset_today` (the store effect is `clear_day`). -/
def reset_today_reply (today : Date) : String :=
  "Cleared entries for today (" ++ isoformat today ++ ")."

/-! ## Dialogue handlers (src/bot.py lines 233-353, 400-423) -/

/-- The `context.user_data` dict: the keys this bot ever sets. -/
structure UD where
  name : Option String
  grams : Option ℚ
deriving DecidableEq, Repr

/-- `context.user_data.clear()`. -/
def UD.clear : UD := ⟨none, none⟩

/-- States of the grams conversation (`G_NAME`, `G_GRAMS`, `G_KCAL100`). -/
inductive GState
  | name
  | grams
  | kcal100
deriving DecidableEq, Repr

/-- States of the kcal conversation (`K_NAME`, `K_KCAL`). -/
inductive KState
  | name
  | kcal
deriving DecidableEq, Repr

/-- Outcome of a dialogue step that does not touch the store: the returned
conversation state (`none` is `ConversationHandler.END`), the user data, and
the reply text. -/
structure FlowStep (σ : Type) where
  next : Option σ
  ud : UD
  reply : String
deriving DecidableEq, Repr

/-- Outcome of a dialogue step that may touch the store. -/
structure FlowStepDB (σ : Type) where
  next : Option σ
  ud : UD
  store : List Entry
  reply : String
deriving DecidableEq, Repr

/-- `grams_name` (lines 248-256). -/
def grams_name (ud : UD) (text : String) : FlowStep GState :=
  let name := pyStripStr text
  if name = "" ∨ is_button_text name then
    ⟨some GState.name, ud, "Enter product name (text):"⟩
  else
    ⟨some GState.grams, { ud with name := some name }, "Enter grams (e.g. 120):"⟩

/-- `grams_grams` (lines 259-275). -/
def grams_grams (ud : UD) (text : String) : FlowStep GState :=
  let txt := pyStripStr text
  if is_button_text txt then
    ⟨some GState.grams, ud, "Enter a number (grams) or press Cancel."⟩
  else
    match extract_number txt with
    | none => ⟨some GState.grams, ud, "Grams must be a number > 0. Example: 120"⟩
    | some grams =>
      if grams ≤ 0 then
        ⟨some GState.grams, ud, "Grams must be a number > 0. Example: 120"⟩
      else
        ⟨some GState.kcal100, { ud with grams := some grams }, "Enter kcal per 100g (e.g. 89):"⟩

/-- `grams_kcal100` (lines 278-305).  The `context.user_data["name"]` lookup
raises `KeyError` when the key is absent; that path surfaces through the
`on_error` hook as the generic failure reply, leaving state unchanged. -/
def grams_kcal100 (store : List Entry) (uid : ℤ) (today : Date) (ud : UD)
    (text : String) : FlowStepDB GState :=
  let txt := pyStripStr text
  if is_button_text txt then
    ⟨some GState.kcal100, ud, store, "Enter a number (kcal per 100g) or press Cancel."⟩
  else
    match extract_number txt with
    | none => ⟨some GState.kcal100, ud, store, "kcal/100g must be a number >= 0. Example: 89"⟩
    | some kcal100 =>
      if kcal100 < 0 then
        ⟨some GState.kcal100, ud, store, "kcal/100g must be a number >= 0. Example: 89"⟩
      else
        match ud.name, ud.grams with
        | some name, some grams =>
          let r := add_entry_grams store uid today name grams kcal100
          let total := get_total r.1 uid today
          ⟨none, ud, r.1,
            "Added: " ++ name ++ "\nPortion kcal: " ++ fmt1 r.2 ++
              "\nToday total: " ++ fmt1 total⟩
        | _, _ => ⟨some GState.kcal100, ud, store, "Server error. Check logs."⟩

/-- `kcal_name` (lines 317-325). -/
def kcal_name (ud : UD) (text : String) : FlowStep KState :=
  let name := pyStripStr text
  if name = "" ∨ is_button_text name then
    ⟨some KState.name, ud, "Enter product name (text):"⟩
  else
    ⟨some KState.kcal, { ud with name := some name }, "Enter portion kcal (e.g. 250):"⟩

/-- `kcal_value` (lines 328-353). -/
def kcal_value (store : List Entry) (uid : ℤ) (today : Date) (ud : UD)
    (text : String) : FlowStepDB KState :=
  let txt := pyStripStr text
  if is_button_text txt then
    ⟨some KState.kcal, ud, store, "Enter a number (portion kcal) or press Cancel."⟩
  else
    match extract_number txt with
    | none => ⟨some KState.kcal, ud, store, "kcal must be a number >= 0. Example: 250"⟩
    | some kcal =>
      if kcal < 0 then
        ⟨some KState.kcal, ud, store, "kcal must be a number >= 0. Example: 250"⟩
      else
        match ud.name with
        | some name =>
          let r := add_entry_kcal store uid today name kcal
          let total := get_total r.1 uid today
          ⟨none, ud, r.1,
            "Added: " ++ name ++ "\nPortion kcal: " ++ fmt1 kcal ++
              "\nToday total: " ++ fmt1 total⟩
        | none => ⟨some KState.kcal, ud, store, "Server error. Check logs."⟩

/-- `pick_date_value` (lines 406-423): `some ()` is the `D_DATE` state,
`none` is `ConversationHandler.END`.  The function reads the store but has no
write path, which the type records. -/
def pick_date_value (store : List Entry) (uid : ℤ) (text : String) :
    Option Unit × String :=
  let txt := pyStripStr text
  if is_button_text txt then
    (some (), "Please enter a date (YYYY-MM-DD) or press Cancel.")
  else
    match fromisoformat txt with
    | none => (some (), "Invalid date. Use YYYY-MM-DD (example: 2026-02-23)")
    | some picked =>
      (none, format_day_report picked (get_entries store uid picked)
        (get_total store uid picked))

/-! ## Router (src/bot.py lines 441-519) -/

/-- The per-user runtime state threaded through the update dispatcher: the
shared `entries` table, this user's `user_data`, and the conversation state
this user holds in each of the three `ConversationHandler`s (each keeps its
own conversation key, so several can be non-idle at once). -/
structure SysState where
  store : List Entry
  ud : UD
  convG : Option GState
  convK : Option KState
  convD : Option Unit
deriving DecidableEq, Repr

/-- Dispatch into an active grams-conversation state handler (every state is
registered with `filters.TEXT & ~filters.COMMAND`, so any plain text reaches
the handler of the current state). -/
def applyG (s : SysState) (uid : ℤ) (today : Date) (g : GState) (text : String) :
    SysState × Option String :=
  match g with
  | GState.name =>
    let r := grams_name s.ud text
    ({ s with ud := r.ud, convG := r.next }, some r.reply)
  | GState.grams =>
    let r := grams_grams s.ud text
    ({ s with ud := r.ud, convG := r.next }, some r.reply)
  | GState.kcal100 =>
    let r := grams_kcal100 s.store uid today s.ud text
    ({ s with store := r.store, ud := r.ud, convG := r.next }, some r.reply)

/-- Dispatch into an active kcal-conversation state handler. -/
def applyK (s : SysState) (uid : ℤ) (today : Date) (k : KState) (text : String) :
    SysState × Option String :=
  match k with
  | KState.name =>
    let r := kcal_name s.ud text
    ({ s with ud := r.ud, convK := r.next }, some r.reply)
  | KState.kcal =>
    let r := kcal_value s.store uid today s.ud text
    ({ s with store := r.store, ud := r.ud, convK := r.next }, some r.reply)

/-- One inbound plain-text message processed through the group-0 handler
chain in registration order (src/bot.py lines 497-514): the standalone
cancel regex first, then the five view and utility regex handlers, then the
three conversation handlers.  Each conversation checks its entry points
first (`allow_reentry=True`), then the handler of its current state.
Command messages (first character `/`) go to `CommandHandler`s, outside the
claims under study; they are modelled as unhandled.  A regex handler
`^label$` matches exactly the label.  The standalone `cancel` callback clears
`user_data` and replies, but its `ConversationHandler.END` return value is
ignored because it is not part of any conversation, so no conversation
state changes on the cancel button. -/
def handle_text (s : SysState) (uid : ℤ) (today : Date) (text : String) :
    SysState × Option String :=
  if text.data.head? = some '/' then (s, none)
  else if text = BTN_CANCEL then
    ({ s with ud := UD.clear }, some "Canceled.")
  else if text = BTN_TODAY_LIST then (s, some (today_list s.store uid today))
  else if text = BTN_TOTAL then (s, some (total_today s.store uid today))
  else if text = BTN_YESTERDAY then (s, some (yesterday_total s.store uid today))
  else if text = BTN_WEEK then (s, some (week_total_reply s.store uid today))
  else if text = BTN_RESET then
    ({ s with store := clear_day s.store uid today }, some (reset_today_reply today))
  else if text = BTN_ADD_GRAMS then
    ({ s with ud := UD.clear, convG := some GState.name }, some "Enter product name:")
  else
    match s.convG with
    | some g => applyG s uid today g text
    | none =>
      if text = BTN_ADD_KCAL then
        ({ s with ud := UD.clear, convK := some KState.name }, some "Enter product name:")
      else
        match s.convK with
        | some k => applyK s uid today k text
        | none =>
          if text = BTN_PICK_DATE then
            ({ s with ud := UD.clear, convD := some () }, some "Enter date in format YYYY-MM-DD:")
          else
            match s.convD with
            | some _ =>
              let r := pick_date_value s.store uid text
              ({ s with convD := r.1 }, some r.2)
            | none => (s, none)

/-! ## Evaluation helper

Kernel reduction is stuck on `Rat` arithmetic (its normalization uses
well-founded recursion), so concrete `extract_number` values are computed in
two stages: the character-level scan by `decide`, the rational value by
`norm_num`. -/

theorem extract_number_eval (s : String) (ds fs : List Char) (q : ℚ)
    (h : findNum (pyStrip (mapNbsp s.data)) = some (ds, fs))
    (hq : ratOfParts ds fs = q) :
    extract_number s = some q := by
  simp [extract_number, h, hq]

/-! ## Scanner lemmas

Facts about `digitRun`, `fracOf`, `findNum` that characterise the leftmost
regex match independently of stripping and of surrounding text. -/

theorem mem_of_head? {c : Char} {X : List Char} (h : X.head? = some c) : c ∈ X := by
  cases X with
  | nil => simp at h
  | cons a as =>
    simp only [List.head?_cons, Option.some.injEq] at h
    subst h
    exact List.mem_cons_self a as

theorem isPySpace_props (c : Char) (h : isPySpace c = true) :
    c.isDigit = false ∧ c ≠ '.' ∧ c ≠ ',' := by
  simp only [isPySpace, Bool.or_eq_true, decide_eq_true_eq] at h
  rcases h with ((((((h | h) | h) | h) | h) | h) | h) <;> subst h <;>
    exact ⟨by decide, by decide, by decide⟩

theorem digitRun_all (X : List Char) (h : ∀ c ∈ X, c.isDigit = true) :
    digitRun X = (X, []) := by
  induction X with
  | nil => rfl
  | cons c cs ih =>
    have hc := h c (List.mem_cons_self c cs)
    simp [digitRun, hc, ih fun a ha => h a (List.mem_cons_of_mem c ha)]

theorem digitRun_head_not (X : List Char)
    (h : ∀ c, X.head? = some c → c.isDigit = false) :
    digitRun X = ([], X) := by
  cases X with
  | nil => rfl
  | cons c cs => simp [digitRun, h c rfl]

theorem digitRun_append (X Y : List Char)
    (hY : ∀ c, Y.head? = some c → c.isDigit = false) :
    digitRun (X ++ Y) = ((digitRun X).1, (digitRun X).2 ++ Y) := by
  induction X with
  | nil =>
    simp [digitRun_head_not Y hY, digitRun]
  | cons c cs ih =>
    by_cases hc : c.isDigit
    · simp [digitRun, hc, ih]
    · simp [digitRun, hc]

theorem fracOf_head_not_sep (Y : List Char)
    (h : ∀ c, Y.head? = some c → c ≠ '.' ∧ c ≠ ',') : fracOf Y = [] := by
  cases Y with
  | nil => rfl
  | cons c cs =>
    have hc := h c rfl
    simp [fracOf, hc.1, hc.2]

theorem fracOf_append (R Y : List Char)
    (hY : ∀ c ∈ Y, c.isDigit = false ∧ c ≠ '.' ∧ c ≠ ',') :
    fracOf (R ++ Y) = fracOf R := by
  cases R with
  | nil =>
    rw [List.nil_append]
    exact fracOf_head_not_sep Y fun c hc => (hY c (mem_of_head? hc)).2
  | cons sep rest =>
    by_cases hs : sep = '.' ∨ sep = ','
    · cases rest with
      | nil =>
        cases Y with
        | nil => rfl
        | cons y ys =>
          have hy := hY y (List.mem_cons_self y ys)
          simp [fracOf, hs, hy.1]
      | cons d rest' =>
        by_cases hd : d.isDigit
        · have h1 : digitRun ((d :: rest') ++ Y) =
              ((digitRun (d :: rest')).1, (digitRun (d :: rest')).2 ++ Y) :=
            digitRun_append _ _ fun a ha => (hY a (mem_of_head? ha)).1
          rw [List.cons_append] at h1
          simp [fracOf, hs, hd, h1]
        · simp [fracOf, hs, hd]
    · simp [fracOf, hs]

theorem findNum_cons_not (c : Char) (cs : List Char) (h : c.isDigit = false) :
    findNum (c :: cs) = findNum cs := by
  simp [findNum, h]

theorem findNum_none (X : List Char) (h : ∀ c ∈ X, c.isDigit = false) :
    findNum X = none := by
  induction X with
  | nil => rfl
  | cons c cs ih =>
    rw [findNum_cons_not c cs (h c (List.mem_cons_self c cs))]
    exact ih fun a ha => h a (List.mem_cons_of_mem c ha)

theorem findNum_skip (P X : List Char) (hP : ∀ c ∈ P, c.isDigit = false) :
    findNum (P ++ X) = findNum X := by
  induction P with
  | nil => rfl
  | cons c cs ih =>
    rw [List.cons_append, findNum_cons_not _ _ (hP c (List.mem_cons_self c cs))]
    exact ih fun a ha => hP a (List.mem_cons_of_mem c ha)

theorem findNum_append (X Y : List Char)
    (hY : ∀ c ∈ Y, c.isDigit = false ∧ c ≠ '.' ∧ c ≠ ',') :
    findNum (X ++ Y) = findNum X := by
  induction X with
  | nil =>
    rw [List.nil_append]
    exact findNum_none Y fun c hc => (hY c hc).1
  | cons c cs ih =>
    rw [List.cons_append]
    by_cases hc : c.isDigit
    · have h1 : digitRun ((c :: cs) ++ Y) =
          ((digitRun (c :: cs)).1, (digitRun (c :: cs)).2 ++ Y) :=
        digitRun_append _ _ fun a ha => (hY a (mem_of_head? ha)).1
      rw [List.cons_append] at h1
      simp [findNum, hc, h1, fracOf_append _ _ hY]
    · have hc' : c.isDigit = false := by simpa using hc
      rw [findNum_cons_not _ _ hc', findNum_cons_not _ _ hc']
      exact ih

theorem findNum_dropWhile (X : List Char) :
    findNum (X.dropWhile isPySpace) = findNum X := by
  induction X with
  | nil => rfl
  | cons c cs ih =>
    by_cases hc : isPySpace c = true
    · rw [List.dropWhile_cons_of_pos hc, ih, findNum_cons_not _ _ (isPySpace_props c hc).1]
    · rw [List.dropWhile_cons_of_neg (by simpa using hc)]

theorem findNum_pyStrip (X : List Char) : findNum (pyStrip X) = findNum X := by
  have key : ∀ A : List Char,
      findNum ((A.reverse.dropWhile isPySpace).reverse) = findNum A := by
    intro A
    have hsplit : A = (A.reverse.dropWhile isPySpace).reverse ++
        (A.reverse.takeWhile isPySpace).reverse := by
      conv_lhs => rw [← A.reverse_reverse,
        ← List.takeWhile_append_dropWhile (p := isPySpace) (l := A.reverse)]
      rw [List.reverse_append]
    have hws : ∀ c ∈ (A.reverse.takeWhile isPySpace).reverse,
        c.isDigit = false ∧ c ≠ '.' ∧ c ≠ ',' := by
      intro c hc
      exact isPySpace_props c (List.mem_takeWhile_imp (List.mem_reverse.mp hc))
    calc findNum ((A.reverse.dropWhile isPySpace).reverse)
        = findNum ((A.reverse.dropWhile isPySpace).reverse ++
            (A.reverse.takeWhile isPySpace).reverse) := (findNum_append _ _ hws).symm
      _ = findNum A := by rw [← hsplit]
  rw [pyStrip, key, findNum_dropWhile]

/-- `extract_number` seen through strip-invariance: stripping never changes
the leftmost match, so only the no-break-space replacement remains. -/
theorem extract_number_eq (s : String) :
    extract_number s = (findNum (mapNbsp s.data)).map fun p => ratOfParts p.1 p.2 := by
  rw [extract_number, findNum_pyStrip]

theorem mapNbsp_cons (c : Char) (cs : List Char) :
    mapNbsp (c :: cs) = (if c = '\xa0' then ' ' else c) :: mapNbsp cs := rfl

theorem mapNbsp_append (X Y : List Char) :
    mapNbsp (X ++ Y) = mapNbsp X ++ mapNbsp Y :=
  List.map_append _ _ _

theorem mapNbsp_not_digit (X : List Char) (h : ∀ c ∈ X, c.isDigit = false) :
    ∀ c ∈ mapNbsp X, c.isDigit = false := by
  intro c hc
  rcases List.mem_map.mp hc with ⟨a, ha, rfl⟩
  by_cases hn : a = '\xa0'
  · simp only [hn, if_pos rfl]
    decide
  · simp only [if_neg hn]
    exact h a ha

theorem mapNbsp_digits (X : List Char) (h : ∀ c ∈ X, c.isDigit = true) :
    mapNbsp X = X := by
  induction X with
  | nil => rfl
  | cons c cs ih =>
    have hc : c ≠ '\xa0' := by
      intro hn
      rw [hn] at h
      exact absurd (h _ (List.mem_cons_self _ _)) (by decide)
    rw [mapNbsp_cons, if_neg hc, ih fun a ha => h a (List.mem_cons_of_mem c ha)]

theorem mapNbsp_head_not_digit (X : List Char)
    (h : ∀ c, X.head? = some c → c.isDigit = false) :
    ∀ c, (mapNbsp X).head? = some c → c.isDigit = false := by
  intro c hc
  rw [mapNbsp, List.head?_map] at hc
  cases hp : X.head? with
  | none => rw [hp] at hc; simp at hc
  | some a =>
    rw [hp] at hc
    simp only [Option.map_some', Option.some.injEq] at hc
    subst hc
    by_cases hn : a = '\xa0'
    · simp only [hn, if_pos rfl]
      decide
    · simp only [if_neg hn]
      exact h a hp

theorem findNum_digit_head (c : Char) (cs : List Char) (h : c.isDigit = true) :
    findNum (c :: cs) = some ((digitRun (c :: cs)).1, fracOf (digitRun (c :: cs)).2) := by
  simp [findNum, h]

/-- The leftmost match on a string of shape digits-separator-digits followed
by a non-digit: the regex takes exactly the two digit runs. -/
theorem findNum_at_match (ds fs post : List Char) (sep : Char)
    (hds : ds ≠ []) (hds2 : ∀ c ∈ ds, c.isDigit = true)
    (hsep : sep = '.' ∨ sep = ',')
    (hfs : fs ≠ []) (hfs2 : ∀ c ∈ fs, c.isDigit = true)
    (hpost : ∀ c, post.head? = some c → c.isDigit = false) :
    findNum (ds ++ (sep :: (fs ++ post))) = some (ds, fs) := by
  obtain ⟨d, ds', rfl⟩ := List.exists_cons_of_ne_nil hds
  have hd : d.isDigit = true := hds2 d (List.mem_cons_self _ _)
  have hsepd : sep.isDigit = false := by
    rcases hsep with h | h <;> subst h <;> decide
  have hrun : digitRun ((d :: ds') ++ (sep :: (fs ++ post))) =
      (d :: ds', sep :: (fs ++ post)) := by
    rw [digitRun_append _ _ (fun a ha => by
        simp only [List.head?_cons, Option.some.injEq] at ha
        rw [← ha]; exact hsepd),
      digitRun_all _ hds2]
    rfl
  obtain ⟨f, fs', rfl⟩ := List.exists_cons_of_ne_nil hfs
  have hf : f.isDigit = true := hfs2 f (List.mem_cons_self _ _)
  have hrun2 : digitRun ((f :: fs') ++ post) = (f :: fs', post) := by
    rw [digitRun_append _ _ hpost, digitRun_all _ hfs2]
    rfl
  have hfrac : fracOf (sep :: ((f :: fs') ++ post)) = f :: fs' := by
    rw [List.cons_append]
    simp only [fracOf, if_pos hsep, hf, if_true]
    rw [← List.cons_append, hrun2]
  rw [List.cons_append, findNum_digit_head _ _ hd, ← List.cons_append, hrun]
  simp only [hfrac]

/-- The leftmost match on a digit run followed by anything that extends
neither the run nor a fraction: the regex takes exactly the digit run. -/
theorem findNum_at_match_int (ds post : List Char)
    (hds : ds ≠ []) (hds2 : ∀ c ∈ ds, c.isDigit = true)
    (hpost : ∀ c, post.head? = some c → c.isDigit = false ∧ c ≠ '.' ∧ c ≠ ',') :
    findNum (ds ++ post) = some (ds, []) := by
  obtain ⟨d, ds', rfl⟩ := List.exists_cons_of_ne_nil hds
  have hd : d.isDigit = true := hds2 d (List.mem_cons_self _ _)
  have hrun : digitRun ((d :: ds') ++ post) = (d :: ds', post) := by
    rw [digitRun_append _ _ (fun a ha => (hpost a ha).1), digitRun_all _ hds2]
    rfl
  have hfrac : fracOf post = [] :=
    fracOf_head_not_sep post fun c hc => (hpost c hc).2
  rw [List.cons_append, findNum_digit_head _ _ hd, ← List.cons_append, hrun]
  simp only [hfrac]

/-! ## Claim C1 -/

/-- C1: for every user, day, name and valid pair `(grams, kcal100)` with
`grams > 0` and `kcal100 >= 0`, `add_entry_grams` computes
`kcal = grams * kcal100 / 100`, appends exactly that row, returns the value,
and `get_total` for the same user and day grows by exactly that amount. -/
theorem c1_record_weight_entry (store : List Entry) (uid : ℤ) (day : Date)
    (name : String) (grams kcal100 : ℚ) (hg : 0 < grams) (hk : 0 ≤ kcal100) :
    (add_entry_grams store uid day name grams kcal100).2 = grams * kcal100 / 100 ∧
    (add_entry_grams store uid day name grams kcal100).1 =
      store ++ [⟨uid, day, name, some grams, some kcal100, grams * kcal100 / 100, "grams"⟩] ∧
    get_total (add_entry_grams store uid day name grams kcal100).1 uid day =
      get_total store uid day + (add_entry_grams store uid day name grams kcal100).2 := by
  refine ⟨rfl, rfl, ?_⟩
  simp [add_entry_grams, get_total, List.filter_append, entry_matches]

/-- Witness for C1 at the scenario of the spec: 120 g of Banana at 89 kcal
per 100 g on 2024-05-01 for user 1, starting from an empty store. -/
theorem c1_record_weight_entry_witness :
    (add_entry_grams [] 1 ⟨2024, 5, 1⟩ "Banana" 120 89).2 = 120 * 89 / 100 ∧
    (add_entry_grams [] 1 ⟨2024, 5, 1⟩ "Banana" 120 89).1 =
      [] ++ [⟨1, ⟨2024, 5, 1⟩, "Banana", some 120, some 89, 120 * 89 / 100, "grams"⟩] ∧
    get_total (add_entry_grams [] 1 ⟨2024, 5, 1⟩ "Banana" 120 89).1 1 ⟨2024, 5, 1⟩ =
      get_total [] 1 ⟨2024, 5, 1⟩ + (add_entry_grams [] 1 ⟨2024, 5, 1⟩ "Banana" 120 89).2 :=
  c1_record_weight_entry [] 1 ⟨2024, 5, 1⟩ "Banana" 120 89 (by norm_num) (by norm_num)

/-! ## Claim C3 -/

/-- C3 counterexample: `add_entry_grams` does not validate.  Called with
`grams = -1` (violating `grams > 0`) it appends a row anyway and returns the
computed value, instead of failing with a `ValidationError` and writing no
row. -/
theorem c3_counterexample_store_validates :
    ¬ (0 : ℚ) < -1 ∧
    (add_entry_grams [] 1 ⟨2024, 5, 1⟩ "x" (-1) 50).1 =
      [⟨1, ⟨2024, 5, 1⟩, "x", some (-1), some 50, (-1) * 50 / 100, "grams"⟩] ∧
    (add_entry_grams [] 1 ⟨2024, 5, 1⟩ "x" (-1) 50).2 = -1 / 2 := by
  refine ⟨by norm_num, rfl, by norm_num [add_entry_grams]⟩

/-- C3 amended: `add_entry_grams` itself performs no validation: for every
input, including `grams <= 0` or `kcal100 < 0`, it appends exactly one row
with `kcal = grams * kcal100 / 100` and returns that value.  The constraints
`grams > 0` and `kcal100 >= 0` are enforced upstream by the dialogue
handlers (`grams_grams`, `grams_kcal100`), which on a violating or
unparseable input re-prompt the same state without writing. -/
theorem c3_amended_no_store_validation :
    (∀ (store : List Entry) (uid : ℤ) (day : Date) (name : String) (g k : ℚ),
      add_entry_grams store uid day name g k =
        (store ++ [⟨uid, day, name, some g, some k, g * k / 100, "grams"⟩], g * k / 100)) ∧
    (∀ (ud : UD) (txt : String) (g : ℚ),
      is_button_text (pyStripStr txt) = false →
      extract_number (pyStripStr txt) = some g → g ≤ 0 →
      grams_grams ud txt =
        ⟨some GState.grams, ud, "Grams must be a number > 0. Example: 120"⟩) ∧
    (∀ (store : List Entry) (uid : ℤ) (day : Date) (ud : UD) (txt : String),
      is_button_text (pyStripStr txt) = false →
      extract_number (pyStripStr txt) = none →
      grams_kcal100 store uid day ud txt =
        ⟨some GState.kcal100, ud, store, "kcal/100g must be a number >= 0. Example: 89"⟩) := by
  refine ⟨fun store uid day name g k => rfl, ?_, ?_⟩
  · intro ud txt g hb he hle
    simp [grams_grams, hb, he, hle]
  · intro store uid day ud txt hb he
    simp [grams_kcal100, hb, he]

/-- Witness for C3 amended: a violating insert goes through, and the grams
prompt rejects the in-range-violating input `"0"` without advancing. -/
theorem c3_amended_no_store_validation_witness :
    add_entry_grams [] 2 ⟨2024, 5, 2⟩ "Tea" 100 30 =
      ([] ++ [⟨2, ⟨2024, 5, 2⟩, "Tea", some 100, some 30, 100 * 30 / 100, "grams"⟩],
        100 * 30 / 100) ∧
    grams_grams ⟨none, none⟩ "0" =
      ⟨some GState.grams, ⟨none, none⟩, "Grams must be a number > 0. Example: 120"⟩ :=
  ⟨c3_amended_no_store_validation.1 [] 2 ⟨2024, 5, 2⟩ "Tea" 100 30,
   c3_amended_no_store_validation.2.1 ⟨none, none⟩ "0" 0 (by decide)
     (extract_number_eval _ ['0'] [] 0 (by decide)
       (by simp only [ratOfParts, show digitsToNat ['0'] = 0 from by decide,
             show digitsToNat [] = 0 from rfl]; norm_num)) le_rfl⟩

/-! ## Claim C7 -/

/-- C7: the trailing-7-day total computed by `week_total` equals the sum of
the seven independent single-day totals for today and the six preceding
calendar days, and a day with no entries contributes exactly 0. -/
theorem c7_week_total_is_sum_of_days (store : List Entry) (uid : ℤ) (today : Date) :
    week_total store uid today =
      ∑ i ∈ Finset.range 7, get_total store uid (predD^[i] today) ∧
    ∀ (st : List Entry) (u : ℤ) (d : Date), get_entries st u d = [] → get_total st u d = 0 := by
  constructor
  · have h7 : List.range 7 = [0, 1, 2, 3, 4, 5, 6] := by rfl
    simp only [week_total, h7, List.foldl_cons, List.foldl_nil, Finset.sum_range_succ,
      Finset.sum_range_zero]
    try ring
  · intro st u d h
    simp only [get_entries] at h
    simp [get_total, h]

/-- Witness for C7 on a concrete store: one entry today, one entry six days
back, one entry seven days back (outside the window), for user 1 with today
2024-03-02. -/
theorem c7_week_total_is_sum_of_days_witness :
    week_total
        [⟨1, ⟨2024, 3, 2⟩, "a", none, none, 10, "kcal"⟩,
         ⟨1, ⟨2024, 2, 25⟩, "b", none, none, 20, "kcal"⟩,
         ⟨1, ⟨2024, 2, 24⟩, "c", none, none, 40, "kcal"⟩] 1 ⟨2024, 3, 2⟩ =
      ∑ i ∈ Finset.range 7,
        get_total
          [⟨1, ⟨2024, 3, 2⟩, "a", none, none, 10, "kcal"⟩,
           ⟨1, ⟨2024, 2, 25⟩, "b", none, none, 20, "kcal"⟩,
           ⟨1, ⟨2024, 2, 24⟩, "c", none, none, 40, "kcal"⟩] 1 (predD^[i] ⟨2024, 3, 2⟩) ∧
    get_total [] 1 ⟨2024, 3, 2⟩ = 0 :=
  ⟨(c7_week_total_is_sum_of_days _ 1 ⟨2024, 3, 2⟩).1,
   (c7_week_total_is_sum_of_days [] 1 ⟨2024, 3, 2⟩).2 [] 1 ⟨2024, 3, 2⟩ (by decide)⟩

/-! ## Claim C8 -/

/-- C8: `clear_day` followed by `get_entries` on the same pair returns the
empty list; `clear_day` is idempotent; and clearing a day that already has
no entries leaves the store exactly as it was (so clearing twice in a row
equals clearing once, and clearing an empty day succeeds as a no-op). -/
theorem c8_clear_day_idempotent (store : List Entry) (uid : ℤ) (day : Date) :
    get_entries (clear_day store uid day) uid day = [] ∧
    clear_day (clear_day store uid day) uid day = clear_day store uid day ∧
    (get_entries store uid day = [] → clear_day store uid day = store) := by
  refine ⟨?_, ?_, ?_⟩
  · simp [get_entries, clear_day, List.filter_filter]
  · simp [clear_day, List.filter_filter]
  · intro h
    simp only [get_entries, List.filter_eq_nil_iff] at h
    simp only [clear_day]
    rw [List.filter_eq_self]
    intro e he
    simp [h e he]

/-- Witness for C8 on a concrete two-user store. -/
theorem c8_clear_day_idempotent_witness :
    get_entries (clear_day [⟨1, ⟨2024, 5, 1⟩, "a", none, none, 10, "kcal"⟩,
        ⟨2, ⟨2024, 5, 1⟩, "b", none, none, 20, "kcal"⟩] 1 ⟨2024, 5, 1⟩) 1 ⟨2024, 5, 1⟩ = [] ∧
    clear_day (clear_day [⟨1, ⟨2024, 5, 1⟩, "a", none, none, 10, "kcal"⟩,
          ⟨2, ⟨2024, 5, 1⟩, "b", none, none, 20, "kcal"⟩] 1 ⟨2024, 5, 1⟩) 1 ⟨2024, 5, 1⟩ =
      clear_day [⟨1, ⟨2024, 5, 1⟩, "a", none, none, 10, "kcal"⟩,
        ⟨2, ⟨2024, 5, 1⟩, "b", none, none, 20, "kcal"⟩] 1 ⟨2024, 5, 1⟩ ∧
    clear_day [⟨2, ⟨2024, 5, 1⟩, "b", none, none, 20, "kcal"⟩] 1 ⟨2024, 5, 1⟩ =
      [⟨2, ⟨2024, 5, 1⟩, "b", none, none, 20, "kcal"⟩] :=
  ⟨(c8_clear_day_idempotent _ 1 ⟨2024, 5, 1⟩).1,
   (c8_clear_day_idempotent _ 1 ⟨2024, 5, 1⟩).2.1,
   (c8_clear_day_idempotent [⟨2, ⟨2024, 5, 1⟩, "b", none, none, 20, "kcal"⟩] 1
      ⟨2024, 5, 1⟩).2.2 (by decide)⟩

/-! ## Claim C6 -/

theorem mapNbsp_head_props (X : List Char)
    (h : ∀ c, X.head? = some c → c.isDigit = false ∧ c ≠ '.' ∧ c ≠ ',') :
    ∀ c, (mapNbsp X).head? = some c → c.isDigit = false ∧ c ≠ '.' ∧ c ≠ ',' := by
  intro c hc
  rw [mapNbsp, List.head?_map] at hc
  cases hp : X.head? with
  | none => rw [hp] at hc; simp at hc
  | some a =>
    rw [hp] at hc
    simp only [Option.map_some', Option.some.injEq] at hc
    subst hc
    by_cases hn : a = '\xa0'
    · simp only [hn, if_pos rfl]
      exact ⟨by decide, by decide, by decide⟩
    · simp only [if_neg hn]
      exact h a hp

/-- C6: `extract_number` returns the value of the first decimal number in
the text, with `.` or `,` accepted as the decimal separator, surrounding
text ignored, and no-break spaces treated as spaces; on text containing no
decimal number (no digit at all) it fails instead of returning a value.
Stated as: (1) digit-free text gives `none`; (2) text of shape
digit-free-prefix, digit run, separator, digit run, non-digit-headed suffix
gives the value of the two runs; (3) the same without a fraction part; and
the comma-decimal scenario `"21,5" = 21.5` with comma/dot agreement. -/
theorem c6_extract_number_first_decimal :
    (∀ s : String, (∀ c ∈ s.data, c.isDigit = false) → extract_number s = none) ∧
    (∀ pre ds fs post : List Char, ∀ sep : Char,
      (∀ c ∈ pre, c.isDigit = false) →
      ds ≠ [] → (∀ c ∈ ds, c.isDigit = true) →
      (sep = '.' ∨ sep = ',') →
      fs ≠ [] → (∀ c ∈ fs, c.isDigit = true) →
      (∀ c, post.head? = some c → c.isDigit = false) →
      extract_number (String.mk (pre ++ (ds ++ (sep :: (fs ++ post))))) =
        some ((digitsToNat ds : ℚ) + (digitsToNat fs : ℚ) / (10 : ℚ) ^ fs.length)) ∧
    (∀ pre ds post : List Char,
      (∀ c ∈ pre, c.isDigit = false) →
      ds ≠ [] → (∀ c ∈ ds, c.isDigit = true) →
      (∀ c, post.head? = some c → c.isDigit = false ∧ c ≠ '.' ∧ c ≠ ',') →
      extract_number (String.mk (pre ++ (ds ++ post))) = some (digitsToNat ds : ℚ)) ∧
    extract_number "21,5" = some (43 / 2) ∧
    extract_number "21,5" = extract_number "21.5" := by
  have hval : ratOfParts ['2', '1'] ['5'] = 43 / 2 := by
    simp only [ratOfParts, show digitsToNat ['2', '1'] = 21 from by decide,
      show digitsToNat ['5'] = 5 from by decide]
    norm_num
  refine ⟨?_, ?_, ?_, ?_, ?_⟩
  · intro s h
    rw [extract_number_eq, findNum_none _ (mapNbsp_not_digit _ h)]
    rfl
  · intro pre ds fs post sep hpre hds hds2 hsep hfs hfs2 hpost
    have hsepn : sep ≠ '\xa0' := by
      rcases hsep with h | h <;> subst h <;> decide
    rw [extract_number_eq,
      show (String.mk (pre ++ (ds ++ (sep :: (fs ++ post))))).data =
        pre ++ (ds ++ (sep :: (fs ++ post))) from rfl,
      mapNbsp_append, mapNbsp_append, mapNbsp_cons, if_neg hsepn, mapNbsp_append,
      mapNbsp_digits ds hds2, mapNbsp_digits fs hfs2,
      findNum_skip _ _ (mapNbsp_not_digit _ hpre),
      findNum_at_match ds fs (mapNbsp post) sep hds hds2 hsep hfs hfs2
        (mapNbsp_head_not_digit post hpost)]
    rfl
  · intro pre ds post hpre hds hds2 hpost
    rw [extract_number_eq,
      show (String.mk (pre ++ (ds ++ post))).data = pre ++ (ds ++ post) from rfl,
      mapNbsp_append, mapNbsp_append, mapNbsp_digits ds hds2,
      findNum_skip _ _ (mapNbsp_not_digit _ hpre),
      findNum_at_match_int ds (mapNbsp post) hds hds2 (mapNbsp_head_props post hpost)]
    simp only [Option.map_some', Option.some.injEq, ratOfParts]
    simp [digitsToNat]
  · exact extract_number_eval _ ['2', '1'] ['5'] (43 / 2) (by decide) hval
  · rw [extract_number_eval "21,5" ['2', '1'] ['5'] (43 / 2) (by decide) hval,
      extract_number_eval "21.5" ['2', '1'] ['5'] (43 / 2) (by decide) hval]

/-- Witness for C6: a digit-free text, a comma decimal embedded in text, and
a bare integer embedded in text. -/
theorem c6_extract_number_first_decimal_witness :
    extract_number "no calories here" = none ∧
    extract_number (String.mk (['x', ' '] ++ (['2', '1'] ++ (',' :: (['5'] ++ [' ', 'g']))))) =
      some ((digitsToNat ['2', '1'] : ℚ) +
        (digitsToNat ['5'] : ℚ) / (10 : ℚ) ^ (['5'] : List Char).length) ∧
    extract_number (String.mk ([' '] ++ (['8', '9'] ++ [' ', 'k']))) =
      some (digitsToNat ['8', '9'] : ℚ) :=
  ⟨c6_extract_number_first_decimal.1 "no calories here" (by decide),
   c6_extract_number_first_decimal.2.1 ['x', ' '] ['2', '1'] ['5'] [' ', 'g'] ','
     (by decide) (by decide) (by decide) (Or.inr rfl) (by decide) (by decide)
     (by
       intro c hc
       simp only [List.head?_cons, Option.some.injEq] at hc
       subst hc
       decide),
   c6_extract_number_first_decimal.2.2.1 [' '] ['8', '9'] [' ', 'k']
     (by decide) (by decide) (by decide)
     (by
       intro c hc
       simp only [List.head?_cons, Option.some.injEq] at hc
       subst hc
       exact ⟨by decide, by decide, by decide⟩)⟩

/-! ## Claim C9 -/

/-- C9 (implicit): the regex has no sign, so a leading minus is skipped like
any other non-digit: prepending a minus never changes the extracted value,
`"-5"` parses to the positive 5, and consequently a grams prompt given
`"-5"` accepts `grams = 5` and advances, after which the density step
commits an entry with weight 5. -/
theorem c9_leading_minus_ignored :
    (∀ t : List Char, extract_number (String.mk ('-' :: t)) = extract_number (String.mk t)) ∧
    extract_number "-5" = some 5 ∧
    (∀ (ud : UD) (st : List Entry) (uid : ℤ) (day : Date) (name : String),
      ud.name = some name →
      grams_grams ud "-5" =
        ⟨some GState.kcal100, { ud with grams := some 5 }, "Enter kcal per 100g (e.g. 89):"⟩ ∧
      (grams_kcal100 st uid day { ud with grams := some 5 } "89").next = none ∧
      (grams_kcal100 st uid day { ud with grams := some 5 } "89").store =
        st ++ [⟨uid, day, name, some 5, some 89, 5 * 89 / 100, "grams"⟩]) := by
  have hminus5 : extract_number "-5" = some 5 :=
    extract_number_eval "-5" ['5'] [] 5 (by decide)
      (by
        simp only [ratOfParts, show digitsToNat ['5'] = 5 from by decide,
          show digitsToNat ([] : List Char) = 0 from rfl]
        norm_num)
  have h89 : extract_number "89" = some 89 :=
    extract_number_eval "89" ['8', '9'] [] 89 (by decide)
      (by
        simp only [ratOfParts, show digitsToNat ['8', '9'] = 89 from by decide,
          show digitsToNat ([] : List Char) = 0 from rfl]
        norm_num)
  refine ⟨?_, hminus5, ?_⟩
  · intro t
    rw [extract_number_eq, extract_number_eq,
      show (String.mk ('-' :: t)).data = '-' :: t from rfl,
      show (String.mk t).data = t from rfl,
      mapNbsp_cons, if_neg (by decide), findNum_cons_not _ _ (by decide)]
  · intro ud st uid day name hname
    have hstrip5 : pyStripStr "-5" = "-5" := by decide
    have hb5 : is_button_text "-5" = false := by decide
    have hstrip89 : pyStripStr "89" = "89" := by decide
    have hb89 : is_button_text "89" = false := by decide
    refine ⟨?_, ?_, ?_⟩
    · simp only [grams_grams, hstrip5, hb5, Bool.false_eq_true, if_false, hminus5]
      rw [if_neg (by norm_num)]
    · simp only [grams_kcal100, hstrip89, hb89, Bool.false_eq_true, if_false, h89, hname]
      rw [if_neg (by norm_num)]
    · simp only [grams_kcal100, hstrip89, hb89, Bool.false_eq_true, if_false, h89, hname]
      rw [if_neg (by norm_num)]
      simp [add_entry_grams]

/-- Witness for C9: the grams state accepts `"-5"` as 5 for user data that
already holds the name Banana, and the subsequent density step appends the
row with weight 5. -/
theorem c9_leading_minus_ignored_witness :
    extract_number (String.mk ('-' :: "120".data)) = extract_number (String.mk "120".data) ∧
    grams_grams ⟨some "Banana", none⟩ "-5" =
      ⟨some GState.kcal100, ⟨some "Banana", some 5⟩, "Enter kcal per 100g (e.g. 89):"⟩ ∧
    (grams_kcal100 [] 1 ⟨2024, 5, 1⟩ ⟨some "Banana", some 5⟩ "89").store =
      [] ++ [⟨1, ⟨2024, 5, 1⟩, "Banana", some 5, some 89, 5 * 89 / 100, "grams"⟩] :=
  ⟨c9_leading_minus_ignored.1 "120".data,
   (c9_leading_minus_ignored.2.2 ⟨some "Banana", none⟩ [] 1 ⟨2024, 5, 1⟩ "Banana" rfl).1,
   (c9_leading_minus_ignored.2.2 ⟨some "Banana", none⟩ [] 1 ⟨2024, 5, 1⟩ "Banana" rfl).2.2⟩

/-! ## Strip idempotency and button facts -/

theorem dropWhile_head_false (p : Char → Bool) (X : List Char) :
    ∀ c, (X.dropWhile p).head? = some c → p c = false := by
  induction X with
  | nil => intro c hc; simp at hc
  | cons a as ih =>
    intro c hc
    by_cases h : p a = true
    · rw [List.dropWhile_cons_of_pos h] at hc
      exact ih c hc
    · rw [List.dropWhile_cons_of_neg h] at hc
      simp only [List.head?_cons, Option.some.injEq] at hc
      subst hc
      simpa using h

theorem dropWhile_eq_self_of_head (p : Char → Bool) (X : List Char)
    (h : ∀ c, X.head? = some c → p c = false) : X.dropWhile p = X := by
  cases X with
  | nil => rfl
  | cons a as => exact List.dropWhile_cons_of_neg (by simp [h a rfl])

theorem dropWhile_idem (p : Char → Bool) (X : List Char) :
    (X.dropWhile p).dropWhile p = X.dropWhile p :=
  dropWhile_eq_self_of_head p _ (dropWhile_head_false p X)

theorem dropWhile_getLast (p : Char → Bool) (X : List Char)
    (hne : X.dropWhile p ≠ []) : (X.dropWhile p).getLast? = X.getLast? := by
  conv_rhs => rw [← List.takeWhile_append_dropWhile (p := p) (l := X)]
  rw [List.getLast?_append_of_ne_nil _ hne]

theorem reverse_head? (X : List Char) : X.reverse.head? = X.getLast? := by
  induction X with
  | nil => rfl
  | cons a as ih =>
    cases as with
    | nil => rfl
    | cons b bs =>
      rw [List.getLast?_cons_cons, ← ih, List.reverse_cons]
      cases hh : (b :: bs).reverse with
      | nil => simp at hh
      | cons c cs => rfl

theorem reverse_getLast? (X : List Char) : X.reverse.getLast? = X.head? := by
  rw [← reverse_head? X.reverse, List.reverse_reverse]

theorem pyStrip_head_false (X : List Char) :
    ∀ c, (pyStrip X).head? = some c → isPySpace c = false := by
  intro c hc
  rw [pyStrip, reverse_head?] at hc
  by_cases hE : ((X.dropWhile isPySpace).reverse).dropWhile isPySpace = []
  · rw [hE] at hc; simp at hc
  · rw [dropWhile_getLast _ _ hE, reverse_getLast?] at hc
    exact dropWhile_head_false _ _ c hc

theorem pyStrip_idem (X : List Char) : pyStrip (pyStrip X) = pyStrip X := by
  have h1 : (pyStrip X).dropWhile isPySpace = pyStrip X :=
    dropWhile_eq_self_of_head _ _ (pyStrip_head_false X)
  have h2 : (pyStrip X).reverse.dropWhile isPySpace = (pyStrip X).reverse := by
    rw [pyStrip, List.reverse_reverse]
    exact dropWhile_idem _ _
  show (((pyStrip X).dropWhile isPySpace).reverse.dropWhile isPySpace).reverse = pyStrip X
  rw [h1, h2, List.reverse_reverse]

theorem pyStripStr_idem (s : String) : pyStripStr (pyStripStr s) = pyStripStr s := by
  simp only [pyStripStr]
  rw [pyStrip_idem]

theorem is_button_text_strip (txt : String) :
    is_button_text (pyStripStr txt) = is_button_text txt := by
  simp only [is_button_text, pyStripStr_idem]

/-- No button label parses as a date, so a text whose stripped form is a
valid iso date is not a button. -/
theorem fromisoformat_not_button (txt : String) (d : Date)
    (h : fromisoformat (pyStripStr txt) = some d) :
    is_button_text txt = false := by
  have hall : ∀ b ∈ BUTTONS, fromisoformat b = none := by decide
  cases hb : is_button_text txt with
  | false => rfl
  | true =>
    rw [is_button_text] at hb
    have hmem : pyStripStr txt ∈ BUTTONS := by simpa using hb
    rw [hall _ hmem] at h
    cases h

theorem not_button_ne (txt : String) (hb : is_button_text txt = false) :
    txt ≠ BTN_ADD_GRAMS ∧ txt ≠ BTN_ADD_KCAL ∧ txt ≠ BTN_TODAY_LIST ∧ txt ≠ BTN_TOTAL ∧
    txt ≠ BTN_RESET ∧ txt ≠ BTN_CANCEL ∧ txt ≠ BTN_YESTERDAY ∧ txt ≠ BTN_WEEK ∧
    txt ≠ BTN_PICK_DATE := by
  refine ⟨?_, ?_, ?_, ?_, ?_, ?_, ?_, ?_, ?_⟩ <;>
    (intro he; rw [he] at hb; exact absurd hb (by decide))

/-! ## Handler step lemmas -/

theorem grams_grams_reject (ud : UD) (txt : String)
    (h : is_button_text (pyStripStr txt) = true ∨ extract_number (pyStripStr txt) = none ∨
      ∃ g, extract_number (pyStripStr txt) = some g ∧ g ≤ 0) :
    (grams_grams ud txt).next = some GState.grams ∧ (grams_grams ud txt).ud = ud ∧
    ((grams_grams ud txt).reply = "Enter a number (grams) or press Cancel." ∨
     (grams_grams ud txt).reply = "Grams must be a number > 0. Example: 120") := by
  rcases h with hb | hn | ⟨g, hg, hle⟩
  · simp [grams_grams, hb]
  · by_cases hb : is_button_text (pyStripStr txt) = true
    · simp [grams_grams, hb]
    · simp only [Bool.not_eq_true] at hb
      simp [grams_grams, hb, hn]
  · by_cases hb : is_button_text (pyStripStr txt) = true
    · simp [grams_grams, hb]
    · simp only [Bool.not_eq_true] at hb
      simp [grams_grams, hb, hg, hle]

theorem grams_grams_accept (ud : UD) (txt : String) (g : ℚ)
    (hb : is_button_text (pyStripStr txt) = false)
    (he : extract_number (pyStripStr txt) = some g) (hpos : 0 < g) :
    grams_grams ud txt =
      ⟨some GState.kcal100, { ud with grams := some g }, "Enter kcal per 100g (e.g. 89):"⟩ := by
  simp [grams_grams, hb, he, not_le.mpr hpos]

theorem grams_kcal100_reject (st : List Entry) (uid : ℤ) (day : Date) (ud : UD) (txt : String)
    (h : is_button_text (pyStripStr txt) = true ∨ extract_number (pyStripStr txt) = none ∨
      ∃ k, extract_number (pyStripStr txt) = some k ∧ k < 0) :
    (grams_kcal100 st uid day ud txt).next = some GState.kcal100 ∧
    (grams_kcal100 st uid day ud txt).ud = ud ∧
    (grams_kcal100 st uid day ud txt).store = st ∧
    ((grams_kcal100 st uid day ud txt).reply = "Enter a number (kcal per 100g) or press Cancel." ∨
     (grams_kcal100 st uid day ud txt).reply = "kcal/100g must be a number >= 0. Example: 89") := by
  rcases h with hb | hn | ⟨k, hk, hlt⟩
  · simp [grams_kcal100, hb]
  · by_cases hb : is_button_text (pyStripStr txt) = true
    · simp [grams_kcal100, hb]
    · simp only [Bool.not_eq_true] at hb
      simp [grams_kcal100, hb, hn]
  · by_cases hb : is_button_text (pyStripStr txt) = true
    · simp [grams_kcal100, hb]
    · simp only [Bool.not_eq_true] at hb
      simp [grams_kcal100, hb, hk, hlt]

theorem grams_kcal100_commit (st : List Entry) (uid : ℤ) (day : Date) (ud : UD)
    (txt : String) (k : ℚ) (name : String) (grams : ℚ)
    (hb : is_button_text (pyStripStr txt) = false)
    (he : extract_number (pyStripStr txt) = some k) (hk : ¬ k < 0)
    (hn : ud.name = some name) (hg : ud.grams = some grams) :
    grams_kcal100 st uid day ud txt =
      ⟨none, ud,
        st ++ [⟨uid, day, name, some grams, some k, grams * k / 100, "grams"⟩],
        "Added: " ++ name ++ "\nPortion kcal: " ++ fmt1 (grams * k / 100) ++
          "\nToday total: " ++
          fmt1 (get_total
            (st ++ [⟨uid, day, name, some grams, some k, grams * k / 100, "grams"⟩]) uid day)⟩ := by
  simp [grams_kcal100, hb, he, hk, hn, hg, add_entry_grams]

theorem kcal_value_reject (st : List Entry) (uid : ℤ) (day : Date) (ud : UD) (txt : String)
    (h : is_button_text (pyStripStr txt) = true ∨ extract_number (pyStripStr txt) = none ∨
      ∃ k, extract_number (pyStripStr txt) = some k ∧ k < 0) :
    (kcal_value st uid day ud txt).next = some KState.kcal ∧
    (kcal_value st uid day ud txt).ud = ud ∧
    (kcal_value st uid day ud txt).store = st ∧
    ((kcal_value st uid day ud txt).reply = "Enter a number (portion kcal) or press Cancel." ∨
     (kcal_value st uid day ud txt).reply = "kcal must be a number >= 0. Example: 250") := by
  rcases h with hb | hn | ⟨k, hk, hlt⟩
  · simp [kcal_value, hb]
  · by_cases hb : is_button_text (pyStripStr txt) = true
    · simp [kcal_value, hb]
    · simp only [Bool.not_eq_true] at hb
      simp [kcal_value, hb, hn]
  · by_cases hb : is_button_text (pyStripStr txt) = true
    · simp [kcal_value, hb]
    · simp only [Bool.not_eq_true] at hb
      simp [kcal_value, hb, hk, hlt]

theorem kcal_value_commit (st : List Entry) (uid : ℤ) (day : Date) (ud : UD)
    (txt : String) (k : ℚ) (name : String)
    (hb : is_button_text (pyStripStr txt) = false)
    (he : extract_number (pyStripStr txt) = some k) (hk : ¬ k < 0)
    (hn : ud.name = some name) :
    kcal_value st uid day ud txt =
      ⟨none, ud, st ++ [⟨uid, day, name, none, none, k, "kcal"⟩],
        "Added: " ++ name ++ "\nPortion kcal: " ++ fmt1 k ++
          "\nToday total: " ++
          fmt1 (get_total (st ++ [⟨uid, day, name, none, none, k, "kcal"⟩]) uid day)⟩ := by
  simp [kcal_value, hb, he, hk, hn, add_entry_kcal]

/-! ## Router dispatch lemmas -/

theorem handle_text_cancel (s : SysState) (uid : ℤ) (today : Date) :
    handle_text s uid today BTN_CANCEL = ({ s with ud := UD.clear }, some "Canceled.") := by
  simp [handle_text, show ¬ BTN_CANCEL.data.head? = some '/' from by decide]

theorem handle_text_today_list (s : SysState) (uid : ℤ) (today : Date) :
    handle_text s uid today BTN_TODAY_LIST = (s, some (today_list s.store uid today)) := by
  simp [handle_text, show ¬ BTN_TODAY_LIST.data.head? = some '/' from by decide,
    show BTN_TODAY_LIST ≠ BTN_CANCEL from by decide]

theorem handle_text_reset (s : SysState) (uid : ℤ) (today : Date) :
    handle_text s uid today BTN_RESET =
      ({ s with store := clear_day s.store uid today }, some (reset_today_reply today)) := by
  simp [handle_text, show ¬ BTN_RESET.data.head? = some '/' from by decide,
    show BTN_RESET ≠ BTN_CANCEL from by decide,
    show BTN_RESET ≠ BTN_TODAY_LIST from by decide,
    show BTN_RESET ≠ BTN_TOTAL from by decide,
    show BTN_RESET ≠ BTN_YESTERDAY from by decide,
    show BTN_RESET ≠ BTN_WEEK from by decide]

theorem handle_text_add_grams (s : SysState) (uid : ℤ) (today : Date) :
    handle_text s uid today BTN_ADD_GRAMS =
      ({ s with ud := UD.clear, convG := some GState.name }, some "Enter product name:") := by
  simp [handle_text, show ¬ BTN_ADD_GRAMS.data.head? = some '/' from by decide,
    show BTN_ADD_GRAMS ≠ BTN_CANCEL from by decide,
    show BTN_ADD_GRAMS ≠ BTN_TODAY_LIST from by decide,
    show BTN_ADD_GRAMS ≠ BTN_TOTAL from by decide,
    show BTN_ADD_GRAMS ≠ BTN_YESTERDAY from by decide,
    show BTN_ADD_GRAMS ≠ BTN_WEEK from by decide,
    show BTN_ADD_GRAMS ≠ BTN_RESET from by decide]

theorem handle_text_total (s : SysState) (uid : ℤ) (today : Date) :
    handle_text s uid today BTN_TOTAL = (s, some (total_today s.store uid today)) := by
  simp [handle_text, show ¬ BTN_TOTAL.data.head? = some '/' from by decide,
    show BTN_TOTAL ≠ BTN_CANCEL from by decide,
    show BTN_TOTAL ≠ BTN_TODAY_LIST from by decide]

theorem handle_text_yesterday (s : SysState) (uid : ℤ) (today : Date) :
    handle_text s uid today BTN_YESTERDAY = (s, some (yesterday_total s.store uid today)) := by
  simp [handle_text, show ¬ BTN_YESTERDAY.data.head? = some '/' from by decide,
    show BTN_YESTERDAY ≠ BTN_CANCEL from by decide,
    show BTN_YESTERDAY ≠ BTN_TODAY_LIST from by decide,
    show BTN_YESTERDAY ≠ BTN_TOTAL from by decide]

theorem handle_text_week (s : SysState) (uid : ℤ) (today : Date) :
    handle_text s uid today BTN_WEEK = (s, some (week_total_reply s.store uid today)) := by
  simp [handle_text, show ¬ BTN_WEEK.data.head? = some '/' from by decide,
    show BTN_WEEK ≠ BTN_CANCEL from by decide,
    show BTN_WEEK ≠ BTN_TODAY_LIST from by decide,
    show BTN_WEEK ≠ BTN_TOTAL from by decide,
    show BTN_WEEK ≠ BTN_YESTERDAY from by decide]

theorem handle_text_add_kcal (s : SysState) (uid : ℤ) (today : Date)
    (hg : s.convG = none) :
    handle_text s uid today BTN_ADD_KCAL =
      ({ s with ud := UD.clear, convK := some KState.name }, some "Enter product name:") := by
  simp [handle_text, show ¬ BTN_ADD_KCAL.data.head? = some '/' from by decide,
    show BTN_ADD_KCAL ≠ BTN_CANCEL from by decide,
    show BTN_ADD_KCAL ≠ BTN_TODAY_LIST from by decide,
    show BTN_ADD_KCAL ≠ BTN_TOTAL from by decide,
    show BTN_ADD_KCAL ≠ BTN_YESTERDAY from by decide,
    show BTN_ADD_KCAL ≠ BTN_WEEK from by decide,
    show BTN_ADD_KCAL ≠ BTN_RESET from by decide,
    show BTN_ADD_KCAL ≠ BTN_ADD_GRAMS from by decide, hg]

theorem handle_text_pick_date (s : SysState) (uid : ℤ) (today : Date)
    (hg : s.convG = none) (hk : s.convK = none) :
    handle_text s uid today BTN_PICK_DATE =
      ({ s with ud := UD.clear, convD := some () },
        some "Enter date in format YYYY-MM-DD:") := by
  simp [handle_text, show ¬ BTN_PICK_DATE.data.head? = some '/' from by decide,
    show BTN_PICK_DATE ≠ BTN_CANCEL from by decide,
    show BTN_PICK_DATE ≠ BTN_TODAY_LIST from by decide,
    show BTN_PICK_DATE ≠ BTN_TOTAL from by decide,
    show BTN_PICK_DATE ≠ BTN_YESTERDAY from by decide,
    show BTN_PICK_DATE ≠ BTN_WEEK from by decide,
    show BTN_PICK_DATE ≠ BTN_RESET from by decide,
    show BTN_PICK_DATE ≠ BTN_ADD_GRAMS from by decide,
    show BTN_PICK_DATE ≠ BTN_ADD_KCAL from by decide, hg, hk]

theorem handle_text_to_G (s : SysState) (uid : ℤ) (today : Date) (txt : String) (g : GState)
    (h0 : txt.data.head? ≠ some '/')
    (h1 : txt ≠ BTN_CANCEL) (h2 : txt ≠ BTN_TODAY_LIST) (h3 : txt ≠ BTN_TOTAL)
    (h4 : txt ≠ BTN_YESTERDAY) (h5 : txt ≠ BTN_WEEK) (h6 : txt ≠ BTN_RESET)
    (h7 : txt ≠ BTN_ADD_GRAMS) (hg : s.convG = some g) :
    handle_text s uid today txt = applyG s uid today g txt := by
  simp [handle_text, h0, h1, h2, h3, h4, h5, h6, h7, hg]

theorem handle_text_to_K (s : SysState) (uid : ℤ) (today : Date) (txt : String) (k : KState)
    (h0 : txt.data.head? ≠ some '/')
    (h1 : txt ≠ BTN_CANCEL) (h2 : txt ≠ BTN_TODAY_LIST) (h3 : txt ≠ BTN_TOTAL)
    (h4 : txt ≠ BTN_YESTERDAY) (h5 : txt ≠ BTN_WEEK) (h6 : txt ≠ BTN_RESET)
    (h7 : txt ≠ BTN_ADD_GRAMS) (h8 : txt ≠ BTN_ADD_KCAL)
    (hg : s.convG = none) (hk : s.convK = some k) :
    handle_text s uid today txt = applyK s uid today k txt := by
  simp [handle_text, h0, h1, h2, h3, h4, h5, h6, h7, h8, hg, hk]

theorem handle_text_to_D (s : SysState) (uid : ℤ) (today : Date) (txt : String)
    (h0 : txt.data.head? ≠ some '/')
    (h1 : txt ≠ BTN_CANCEL) (h2 : txt ≠ BTN_TODAY_LIST) (h3 : txt ≠ BTN_TOTAL)
    (h4 : txt ≠ BTN_YESTERDAY) (h5 : txt ≠ BTN_WEEK) (h6 : txt ≠ BTN_RESET)
    (h7 : txt ≠ BTN_ADD_GRAMS) (h8 : txt ≠ BTN_ADD_KCAL) (h9 : txt ≠ BTN_PICK_DATE)
    (hg : s.convG = none) (hk : s.convK = none) (hd : s.convD = some ()) :
    handle_text s uid today txt =
      ({ s with convD := (pick_date_value s.store uid txt).1 },
        some (pick_date_value s.store uid txt).2) := by
  simp [handle_text, h0, h1, h2, h3, h4, h5, h6, h7, h8, h9, hg, hk, hd]

theorem handle_text_fallback (s : SysState) (uid : ℤ) (today : Date) (txt : String)
    (h0 : txt.data.head? ≠ some '/') (hb : is_button_text txt = false)
    (hg : s.convG = none) (hk : s.convK = none) (hd : s.convD = none) :
    handle_text s uid today txt = (s, none) := by
  obtain ⟨n1, n2, n3, n4, n5, n6, n7, n8, n9⟩ := not_button_ne txt hb
  simp [handle_text, h0, n1, n2, n3, n4, n5, n6, n7, n8, n9, hg, hk, hd]

theorem handle_text_store_frame (s : SysState) (uid : ℤ) (today : Date) (txt : String)
    (hg : s.convG = none) (hk : s.convK = none) (hr : txt ≠ BTN_RESET) :
    (handle_text s uid today txt).1.store = s.store := by
  simp only [handle_text, hg, hk]
  split_ifs <;>
    first
      | rfl
      | (exact absurd (by assumption) hr)
      | (cases s.convD <;> rfl)

/-! ## Claim C5 -/

/-- C5: in each dialogue state awaiting a number (`G_GRAMS`, `G_KCAL100`,
`K_KCAL`), an input equal to a reserved button label, an input from which no
number parses, or an out-of-range value (non-positive grams, negative kcal)
leaves the conversation in the same state, leaves the collected user data
unchanged, writes nothing to the store, and replies with a corrective
re-prompt; a subsequent valid number is then accepted: the grams state
advances storing the value, and the two committing states append exactly one
entry and end the conversation. -/
theorem c5_numeric_reject_then_accept :
    (∀ (ud : UD) (txt : String),
      (is_button_text (pyStripStr txt) = true ∨ extract_number (pyStripStr txt) = none ∨
        ∃ g, extract_number (pyStripStr txt) = some g ∧ g ≤ 0) →
      (grams_grams ud txt).next = some GState.grams ∧ (grams_grams ud txt).ud = ud ∧
      ((grams_grams ud txt).reply = "Enter a number (grams) or press Cancel." ∨
       (grams_grams ud txt).reply = "Grams must be a number > 0. Example: 120")) ∧
    (∀ (st : List Entry) (uid : ℤ) (day : Date) (ud : UD) (txt : String),
      (is_button_text (pyStripStr txt) = true ∨ extract_number (pyStripStr txt) = none ∨
        ∃ k, extract_number (pyStripStr txt) = some k ∧ k < 0) →
      (grams_kcal100 st uid day ud txt).next = some GState.kcal100 ∧
      (grams_kcal100 st uid day ud txt).ud = ud ∧
      (grams_kcal100 st uid day ud txt).store = st ∧
      ((grams_kcal100 st uid day ud txt).reply =
          "Enter a number (kcal per 100g) or press Cancel." ∨
       (grams_kcal100 st uid day ud txt).reply =
          "kcal/100g must be a number >= 0. Example: 89")) ∧
    (∀ (st : List Entry) (uid : ℤ) (day : Date) (ud : UD) (txt : String),
      (is_button_text (pyStripStr txt) = true ∨ extract_number (pyStripStr txt) = none ∨
        ∃ k, extract_number (pyStripStr txt) = some k ∧ k < 0) →
      (kcal_value st uid day ud txt).next = some KState.kcal ∧
      (kcal_value st uid day ud txt).ud = ud ∧
      (kcal_value st uid day ud txt).store = st ∧
      ((kcal_value st uid day ud txt).reply =
          "Enter a number (portion kcal) or press Cancel." ∨
       (kcal_value st uid day ud txt).reply = "kcal must be a number >= 0. Example: 250")) ∧
    (∀ (ud : UD) (txt : String) (g : ℚ),
      is_button_text (pyStripStr txt) = false →
      extract_number (pyStripStr txt) = some g → 0 < g →
      grams_grams ud txt =
        ⟨some GState.kcal100, { ud with grams := some g }, "Enter kcal per 100g (e.g. 89):"⟩) ∧
    (∀ (st : List Entry) (uid : ℤ) (day : Date) (ud : UD) (txt : String) (k : ℚ)
        (name : String) (grams : ℚ),
      is_button_text (pyStripStr txt) = false →
      extract_number (pyStripStr txt) = some k → ¬ k < 0 →
      ud.name = some name → ud.grams = some grams →
      (grams_kcal100 st uid day ud txt).next = none ∧
      (grams_kcal100 st uid day ud txt).store =
        st ++ [⟨uid, day, name, some grams, some k, grams * k / 100, "grams"⟩]) ∧
    (∀ (st : List Entry) (uid : ℤ) (day : Date) (ud : UD) (txt : String) (k : ℚ)
        (name : String),
      is_button_text (pyStripStr txt) = false →
      extract_number (pyStripStr txt) = some k → ¬ k < 0 →
      ud.name = some name →
      (kcal_value st uid day ud txt).next = none ∧
      (kcal_value st uid day ud txt).store =
        st ++ [⟨uid, day, name, none, none, k, "kcal"⟩]) := by
  refine ⟨grams_grams_reject, grams_kcal100_reject, kcal_value_reject,
    grams_grams_accept, ?_, ?_⟩
  · intro st uid day ud txt k name grams hb he hk hn hg
    rw [grams_kcal100_commit st uid day ud txt k name grams hb he hk hn hg]
    exact ⟨rfl, rfl⟩
  · intro st uid day ud txt k name hb he hk hn
    rw [kcal_value_commit st uid day ud txt k name hb he hk hn]
    exact ⟨rfl, rfl⟩

/-- Witness for C5: the grams state rejects the button text `"Total"` and
the unparseable `"abc"` without advancing, accepts `"120"`, and the kcal
state commits `"250"`. -/
theorem c5_numeric_reject_then_accept_witness :
    ((grams_grams ⟨some "Banana", none⟩ "Total").next = some GState.grams ∧
      (grams_grams ⟨some "Banana", none⟩ "Total").ud = ⟨some "Banana", none⟩ ∧
      ((grams_grams ⟨some "Banana", none⟩ "Total").reply =
          "Enter a number (grams) or press Cancel." ∨
       (grams_grams ⟨some "Banana", none⟩ "Total").reply =
          "Grams must be a number > 0. Example: 120")) ∧
    ((grams_grams ⟨some "Banana", none⟩ "abc").next = some GState.grams ∧
      (grams_grams ⟨some "Banana", none⟩ "abc").ud = ⟨some "Banana", none⟩ ∧
      ((grams_grams ⟨some "Banana", none⟩ "abc").reply =
          "Enter a number (grams) or press Cancel." ∨
       (grams_grams ⟨some "Banana", none⟩ "abc").reply =
          "Grams must be a number > 0. Example: 120")) ∧
    grams_grams ⟨some "Banana", none⟩ "120" =
      ⟨some GState.kcal100, { name := some "Banana", grams := some 120 },
        "Enter kcal per 100g (e.g. 89):"⟩ ∧
    ((kcal_value [] 3 ⟨2024, 5, 1⟩ ⟨some "Tea", none⟩ "250").next = none ∧
      (kcal_value [] 3 ⟨2024, 5, 1⟩ ⟨some "Tea", none⟩ "250").store =
        [] ++ [⟨3, ⟨2024, 5, 1⟩, "Tea", none, none, 250, "kcal"⟩]) := by
  have h120 : extract_number (pyStripStr "120") = some 120 := by
    rw [show pyStripStr "120" = "120" from by decide]
    exact extract_number_eval _ ['1', '2', '0'] [] 120 (by decide)
      (by
        simp only [ratOfParts, show digitsToNat ['1', '2', '0'] = 120 from by decide,
          show digitsToNat ([] : List Char) = 0 from rfl]
        norm_num)
  have h250 : extract_number (pyStripStr "250") = some 250 := by
    rw [show pyStripStr "250" = "250" from by decide]
    exact extract_number_eval _ ['2', '5', '0'] [] 250 (by decide)
      (by
        simp only [ratOfParts, show digitsToNat ['2', '5', '0'] = 250 from by decide,
          show digitsToNat ([] : List Char) = 0 from rfl]
        norm_num)
  exact ⟨c5_numeric_reject_then_accept.1 ⟨some "Banana", none⟩ "Total" (Or.inl (by decide)),
    c5_numeric_reject_then_accept.1 ⟨some "Banana", none⟩ "abc" (Or.inr (Or.inl (by decide))),
    c5_numeric_reject_then_accept.2.2.2.1 ⟨some "Banana", none⟩ "120" 120 (by decide) h120
      (by norm_num),
    c5_numeric_reject_then_accept.2.2.2.2.2 [] 3 ⟨2024, 5, 1⟩ ⟨some "Tea", none⟩ "250" 250
      "Tea" (by decide) h250 (by norm_num) rfl⟩

/-! ## Claim C4 -/

/-- C4 counterexample: completing the date-pick flow with a valid date
performs zero Entry Store writes, not exactly one (the store stays empty
while that conversation reaches its terminal and ends), and completing the
weight flow leaves the collected fields in `user_data`: name and grams
persist after the terminal commit, so the flow does leave state behind. -/
theorem c4_counterexample_terminal :
    handle_text ⟨[], ⟨none, none⟩, none, none, some ()⟩ 7 ⟨2024, 5, 1⟩ "2024-05-01" =
      (⟨[], ⟨none, none⟩, none, none, none⟩, some "No entries for 2024-05-01\nTotal: 0.0") ∧
    (handle_text ⟨[], ⟨some "Banana", some 120⟩, some GState.kcal100, none, none⟩ 7
        ⟨2024, 5, 1⟩ "89").1.ud = ⟨some "Banana", some 120⟩ ∧
    (handle_text ⟨[], ⟨some "Banana", some 120⟩, some GState.kcal100, none, none⟩ 7
        ⟨2024, 5, 1⟩ "89").1.convG = none := by
  have h89 : extract_number (pyStripStr "89") = some 89 := by
    rw [show pyStripStr "89" = "89" from by decide]
    exact extract_number_eval _ ['8', '9'] [] 89 (by decide)
      (by
        simp only [ratOfParts, show digitsToNat ['8', '9'] = 89 from by decide,
          show digitsToNat ([] : List Char) = 0 from rfl]
        norm_num)
  have hG := handle_text_to_G ⟨[], ⟨some "Banana", some 120⟩, some GState.kcal100, none, none⟩
    7 ⟨2024, 5, 1⟩ "89" GState.kcal100 (by decide) (by decide) (by decide) (by decide)
    (by decide) (by decide) (by decide) (by decide) rfl
  have hc := grams_kcal100_commit [] 7 ⟨2024, 5, 1⟩ ⟨some "Banana", some 120⟩ "89" 89
    "Banana" 120 (by decide) h89 (by norm_num) rfl rfl
  refine ⟨by decide, ?_, ?_⟩
  · rw [hG]
    simp only [applyG, hc]
  · rw [hG]
    simp only [applyG, hc]

/-- C4 amended: for the weight and direct flows, reaching the terminal state
appends exactly one row to the Entry Store and ends the conversation, but
the collected `user_data` fields are not cleared at completion (they persist
until the next flow start or a cancel clears them); the date-pick flow has
no terminal write at all: with no weight or direct conversation active, no
message other than the Reset label ever changes the store. -/
theorem c4_amended_terminal_one_write :
    (∀ (st : List Entry) (uid : ℤ) (day : Date) (ud : UD) (txt : String) (k : ℚ)
        (name : String) (grams : ℚ),
      is_button_text (pyStripStr txt) = false →
      extract_number (pyStripStr txt) = some k → ¬ k < 0 →
      ud.name = some name → ud.grams = some grams →
      (grams_kcal100 st uid day ud txt).next = none ∧
      (grams_kcal100 st uid day ud txt).ud = ud ∧
      (grams_kcal100 st uid day ud txt).store =
        st ++ [⟨uid, day, name, some grams, some k, grams * k / 100, "grams"⟩]) ∧
    (∀ (st : List Entry) (uid : ℤ) (day : Date) (ud : UD) (txt : String) (k : ℚ)
        (name : String),
      is_button_text (pyStripStr txt) = false →
      extract_number (pyStripStr txt) = some k → ¬ k < 0 →
      ud.name = some name →
      (kcal_value st uid day ud txt).next = none ∧
      (kcal_value st uid day ud txt).ud = ud ∧
      (kcal_value st uid day ud txt).store =
        st ++ [⟨uid, day, name, none, none, k, "kcal"⟩]) ∧
    (∀ (s : SysState) (uid : ℤ) (today : Date) (txt : String),
      s.convG = none → s.convK = none → txt ≠ BTN_RESET →
      (handle_text s uid today txt).1.store = s.store) := by
  refine ⟨?_, ?_, fun s uid today txt hg hk hr =>
    handle_text_store_frame s uid today txt hg hk hr⟩
  · intro st uid day ud txt k name grams hb he hk hn hg
    rw [grams_kcal100_commit st uid day ud txt k name grams hb he hk hn hg]
    exact ⟨rfl, rfl, rfl⟩
  · intro st uid day ud txt k name hb he hk hn
    rw [kcal_value_commit st uid day ud txt k name hb he hk hn]
    exact ⟨rfl, rfl, rfl⟩

/-- Witness for C4 amended: the weight flow commits exactly one row for
Banana at 120 g, 89 kcal per 100 g, keeping the user data; and with a
date-pick session active the store is untouched by the date message. -/
theorem c4_amended_terminal_one_write_witness :
    ((grams_kcal100 [] 7 ⟨2024, 5, 1⟩ ⟨some "Banana", some 120⟩ "89").next = none ∧
      (grams_kcal100 [] 7 ⟨2024, 5, 1⟩ ⟨some "Banana", some 120⟩ "89").ud =
        ⟨some "Banana", some 120⟩ ∧
      (grams_kcal100 [] 7 ⟨2024, 5, 1⟩ ⟨some "Banana", some 120⟩ "89").store =
        [] ++ [⟨7, ⟨2024, 5, 1⟩, "Banana", some 120, some 89, 120 * 89 / 100, "grams"⟩]) ∧
    (handle_text ⟨[⟨7, ⟨2024, 5, 1⟩, "a", none, none, 10, "kcal"⟩], ⟨none, none⟩,
        none, none, some ()⟩ 7 ⟨2024, 5, 1⟩ "2024-05-01").1.store =
      [⟨7, ⟨2024, 5, 1⟩, "a", none, none, 10, "kcal"⟩] := by
  have h89 : extract_number (pyStripStr "89") = some 89 := by
    rw [show pyStripStr "89" = "89" from by decide]
    exact extract_number_eval _ ['8', '9'] [] 89 (by decide)
      (by
        simp only [ratOfParts, show digitsToNat ['8', '9'] = 89 from by decide,
          show digitsToNat ([] : List Char) = 0 from rfl]
        norm_num)
  exact ⟨c4_amended_terminal_one_write.1 [] 7 ⟨2024, 5, 1⟩ ⟨some "Banana", some 120⟩ "89" 89
      "Banana" 120 (by decide) h89 (by norm_num) rfl rfl,
    c4_amended_terminal_one_write.2.2 _ 7 ⟨2024, 5, 1⟩ "2024-05-01" rfl rfl (by decide)⟩

/-! ## Claim C2 -/

/-- C2 counterexample: with a grams session active in the grams state, the
view label `Today list` is handled by the view handler and answers with the
day report, not with the re-prompt the session state handler would have
produced, because the view regex handlers are registered before the
conversation handlers.  The session state is also untouched. -/
theorem c2_counterexample_view_preempts_session :
    (handle_text ⟨[], ⟨some "Banana", none⟩, some GState.grams, none, none⟩ 1 ⟨2024, 5, 1⟩
        "Today list").2 = some "No entries for 2024-05-01\nTotal: 0.0" ∧
    (handle_text ⟨[], ⟨some "Banana", none⟩, some GState.grams, none, none⟩ 1 ⟨2024, 5, 1⟩
        "Today list").1 = ⟨[], ⟨some "Banana", none⟩, some GState.grams, none, none⟩ ∧
    (grams_grams ⟨some "Banana", none⟩ "Today list").reply =
      "Enter a number (grams) or press Cancel." ∧
    (handle_text ⟨[], ⟨some "Banana", none⟩, some GState.grams, none, none⟩ 1 ⟨2024, 5, 1⟩
        "Today list").2 ≠ some "Enter a number (grams) or press Cancel." := by
  exact ⟨by decide, by decide, by decide, by decide⟩

/-- C2 amended: the dispatch order for a plain text message, first match
wins, is: (1) the cancel label always hits the standalone cancel handler,
which clears the collected fields and replies but leaves every conversation
state untouched; (2) the five view and utility labels (Today list, Total,
Yesterday, Last 7 days, Reset) trigger their store actions even while a
session is active, so an active session never receives them; (3) the
remaining text goes to the three conversation handlers in registration
order (weight, direct, date-pick), each checking its flow-start label
before its active state: so the weight label always starts (or restarts)
the weight flow, while an active weight session receives every other text —
including the start labels of the direct and date-pick flows, which
therefore start their flow only when no earlier-registered conversation is
active; likewise an active direct session receives everything except the
labels above it, and the date-pick label starts its flow only when neither
weight nor direct is active; (4) with no active conversation and no
matching label no reply is produced — there is no generic fallback
handler. -/
theorem c2_amended_dispatch_order (s : SysState) (uid : ℤ) (today : Date) (txt : String) :
    (handle_text s uid today BTN_CANCEL = ({ s with ud := UD.clear }, some "Canceled.")) ∧
    (handle_text s uid today BTN_TODAY_LIST = (s, some (today_list s.store uid today))) ∧
    (handle_text s uid today BTN_TOTAL = (s, some (total_today s.store uid today))) ∧
    (handle_text s uid today BTN_YESTERDAY =
      (s, some (yesterday_total s.store uid today))) ∧
    (handle_text s uid today BTN_WEEK = (s, some (week_total_reply s.store uid today))) ∧
    (handle_text s uid today BTN_RESET =
      ({ s with store := clear_day s.store uid today }, some (reset_today_reply today))) ∧
    (handle_text s uid today BTN_ADD_GRAMS =
      ({ s with ud := UD.clear, convG := some GState.name }, some "Enter product name:")) ∧
    (txt.data.head? ≠ some '/' → txt ≠ BTN_CANCEL → txt ≠ BTN_TODAY_LIST → txt ≠ BTN_TOTAL →
      txt ≠ BTN_YESTERDAY → txt ≠ BTN_WEEK → txt ≠ BTN_RESET → txt ≠ BTN_ADD_GRAMS →
      ∀ g, s.convG = some g → handle_text s uid today txt = applyG s uid today g txt) ∧
    (s.convG = none →
      handle_text s uid today BTN_ADD_KCAL =
        ({ s with ud := UD.clear, convK := some KState.name },
          some "Enter product name:")) ∧
    (txt.data.head? ≠ some '/' → txt ≠ BTN_CANCEL → txt ≠ BTN_TODAY_LIST → txt ≠ BTN_TOTAL →
      txt ≠ BTN_YESTERDAY → txt ≠ BTN_WEEK → txt ≠ BTN_RESET → txt ≠ BTN_ADD_GRAMS →
      txt ≠ BTN_ADD_KCAL → s.convG = none →
      ∀ k, s.convK = some k → handle_text s uid today txt = applyK s uid today k txt) ∧
    (s.convG = none → s.convK = none →
      handle_text s uid today BTN_PICK_DATE =
        ({ s with ud := UD.clear, convD := some () },
          some "Enter date in format YYYY-MM-DD:")) ∧
    (txt.data.head? ≠ some '/' → txt ≠ BTN_CANCEL → txt ≠ BTN_TODAY_LIST → txt ≠ BTN_TOTAL →
      txt ≠ BTN_YESTERDAY → txt ≠ BTN_WEEK → txt ≠ BTN_RESET → txt ≠ BTN_ADD_GRAMS →
      txt ≠ BTN_ADD_KCAL → txt ≠ BTN_PICK_DATE → s.convG = none → s.convK = none →
      s.convD = some () →
      handle_text s uid today txt =
        ({ s with convD := (pick_date_value s.store uid txt).1 },
          some (pick_date_value s.store uid txt).2)) ∧
    (txt.data.head? ≠ some '/' → is_button_text txt = false → s.convG = none →
      s.convK = none → s.convD = none → handle_text s uid today txt = (s, none)) :=
  ⟨handle_text_cancel s uid today,
   handle_text_today_list s uid today,
   handle_text_total s uid today,
   handle_text_yesterday s uid today,
   handle_text_week s uid today,
   handle_text_reset s uid today,
   handle_text_add_grams s uid today,
   fun h0 h1 h2 h3 h4 h5 h6 h7 g hg =>
     handle_text_to_G s uid today txt g h0 h1 h2 h3 h4 h5 h6 h7 hg,
   fun hg => handle_text_add_kcal s uid today hg,
   fun h0 h1 h2 h3 h4 h5 h6 h7 h8 hg k hk =>
     handle_text_to_K s uid today txt k h0 h1 h2 h3 h4 h5 h6 h7 h8 hg hk,
   fun hg hk => handle_text_pick_date s uid today hg hk,
   fun h0 h1 h2 h3 h4 h5 h6 h7 h8 h9 hg hk hd =>
     handle_text_to_D s uid today txt h0 h1 h2 h3 h4 h5 h6 h7 h8 h9 hg hk hd,
   fun h0 hb hg hk hd => handle_text_fallback s uid today txt h0 hb hg hk hd⟩

/-- Witness for C2 amended: cancel during a grams session clears the fields
but keeps the conversation state; the start label of the direct flow sent
while the grams session is active reaches that session instead of starting
the direct flow; the same label with no active session does start the
direct flow; unmatched text with no session gets no reply. -/
theorem c2_amended_dispatch_order_witness :
    handle_text ⟨[], ⟨some "Banana", none⟩, some GState.grams, none, none⟩ 1 ⟨2024, 5, 1⟩
        BTN_CANCEL =
      (⟨[], UD.clear, some GState.grams, none, none⟩, some "Canceled.") ∧
    handle_text ⟨[], ⟨some "Banana", none⟩, some GState.grams, none, none⟩ 1 ⟨2024, 5, 1⟩
        "Add (kcal)" =
      applyG ⟨[], ⟨some "Banana", none⟩, some GState.grams, none, none⟩ 1 ⟨2024, 5, 1⟩
        GState.grams "Add (kcal)" ∧
    handle_text ⟨[], ⟨none, none⟩, none, none, none⟩ 1 ⟨2024, 5, 1⟩ BTN_ADD_KCAL =
      (⟨[], UD.clear, none, some KState.name, none⟩, some "Enter product name:") ∧
    handle_text ⟨[], ⟨none, none⟩, none, none, none⟩ 1 ⟨2024, 5, 1⟩ "hello" =
      (⟨[], ⟨none, none⟩, none, none, none⟩, none) :=
  ⟨(c2_amended_dispatch_order ⟨[], ⟨some "Banana", none⟩, some GState.grams, none, none⟩ 1
      ⟨2024, 5, 1⟩ "x").1,
   (c2_amended_dispatch_order ⟨[], ⟨some "Banana", none⟩, some GState.grams, none, none⟩ 1
      ⟨2024, 5, 1⟩ "Add (kcal)").2.2.2.2.2.2.2.1 (by decide) (by decide) (by decide)
      (by decide) (by decide) (by decide) (by decide) (by decide) GState.grams rfl,
   (c2_amended_dispatch_order ⟨[], ⟨none, none⟩, none, none, none⟩ 1 ⟨2024, 5, 1⟩
      "x").2.2.2.2.2.2.2.2.1 rfl,
   (c2_amended_dispatch_order ⟨[], ⟨none, none⟩, none, none, none⟩ 1 ⟨2024, 5, 1⟩
      "hello").2.2.2.2.2.2.2.2.2.2.2.2 (by decide) (by decide) rfl rfl rfl⟩

/-! ## Claim C10 -/

/-- C10 (implicit): the date-pick flow is read-only.  With no weight or
direct session active, no message other than the Reset label ever changes
the store (in particular completing the date-pick flow does not), and
completing the date-pick flow with a valid `YYYY-MM-DD` date ends the
conversation and reports the picked day from `get_entries` and `get_total`
only; for a day with no entries the report is the
`No entries ... Total: 0.0` text. -/
theorem c10_date_pick_read_only (s : SysState) (uid : ℤ) (today : Date) (txt : String) :
    (s.convG = none → s.convK = none → txt ≠ BTN_RESET →
      (handle_text s uid today txt).1.store = s.store) ∧
    (s.convG = none → s.convK = none → s.convD = some () → txt.data.head? ≠ some '/' →
      ∀ d, fromisoformat (pyStripStr txt) = some d →
        handle_text s uid today txt =
          ({ s with convD := none },
            some (format_day_report d (get_entries s.store uid d) (get_total s.store uid d))) ∧
        (get_entries s.store uid d = [] →
          format_day_report d (get_entries s.store uid d) (get_total s.store uid d) =
            "No entries for " ++ isoformat d ++ "\nTotal: 0.0")) := by
  constructor
  · exact fun hg hk hr => handle_text_store_frame s uid today txt hg hk hr
  · intro hg hk hd h0 d hiso
    have hbt : is_button_text txt = false := fromisoformat_not_button txt d hiso
    obtain ⟨n1, n2, n3, n4, n5, n6, n7, n8, n9⟩ := not_button_ne txt hbt
    have hD := handle_text_to_D s uid today txt h0 n6 n3 n4 n7 n8 n5 n1 n2 n9 hg hk hd
    have hbt2 : is_button_text (pyStripStr txt) = false := by
      rw [is_button_text_strip]; exact hbt
    have hpv : pick_date_value s.store uid txt =
        (none, format_day_report d (get_entries s.store uid d) (get_total s.store uid d)) := by
      simp only [pick_date_value, hbt2, Bool.false_eq_true, if_false, hiso]
    constructor
    · rw [hD, hpv]
    · intro hnil
      rw [hnil]
      simp [format_day_report]

/-- Witness for C10: a store with one entry survives a message while a
date-pick session is active, and picking 2024-02-20 on an empty store ends
the session and reports a zero total. -/
theorem c10_date_pick_read_only_witness :
    (handle_text ⟨[⟨2, ⟨2024, 3, 1⟩, "a", none, none, 10, "kcal"⟩], ⟨none, none⟩,
        none, none, some ()⟩ 2 ⟨2024, 3, 1⟩ "hello").1.store =
      [⟨2, ⟨2024, 3, 1⟩, "a", none, none, 10, "kcal"⟩] ∧
    handle_text ⟨[], ⟨none, none⟩, none, none, some ()⟩ 2 ⟨2024, 3, 1⟩ "2024-02-20" =
      (⟨[], ⟨none, none⟩, none, none, none⟩,
        some (format_day_report ⟨2024, 2, 20⟩ (get_entries [] 2 ⟨2024, 2, 20⟩)
          (get_total [] 2 ⟨2024, 2, 20⟩))) ∧
    format_day_report ⟨2024, 2, 20⟩ (get_entries [] 2 ⟨2024, 2, 20⟩)
        (get_total [] 2 ⟨2024, 2, 20⟩) =
      "No entries for " ++ isoformat ⟨2024, 2, 20⟩ ++ "\nTotal: 0.0" :=
  ⟨(c10_date_pick_read_only _ 2 ⟨2024, 3, 1⟩ "hello").1 rfl rfl (by decide),
   ((c10_date_pick_read_only ⟨[], ⟨none, none⟩, none, none, some ()⟩ 2 ⟨2024, 3, 1⟩
      "2024-02-20").2 rfl rfl rfl (by decide) ⟨2024, 2, 20⟩ (by decide)).1,
   ((c10_date_pick_read_only ⟨[], ⟨none, none⟩, none, none, some ()⟩ 2 ⟨2024, 3, 1⟩
      "2024-02-20").2 rfl rfl rfl (by decide) ⟨2024, 2, 20⟩ (by decide)).2 (by decide)⟩

end BotCal
